import Mathlib

/-!
Verification of the itsjustintv webhook bridge (Go) against its
natural-language specification.

The Go sources are shallowly embedded: byte slices become `List Nat`
(each element a byte value `< 256`), Go strings become `List Char`
(the repository only exercises ASCII data in the properties considered
here, so `[]byte(s)` is modelled as `List Char → List Nat` via
`Char.toNat`), `time.Time`/`time.Duration` become `ℚ` (nanoseconds,
passed explicitly: every Go call of `time.Now()` becomes a `now`
parameter), and Go `float64` retry arithmetic is modelled exactly over
`ℚ`.  Fallible Go functions returning `error` become `Except (List Char)`.
Network and filesystem effects (dispatch success, enrichment results,
config file decoding) are inputs of the embedded functions.

The cryptographic primitives used by the code (`crypto/sha256`,
`crypto/sha1`, `crypto/sha512`, `crypto/hmac`, `encoding/hex` from the
Go standard library) are implemented executably below following
FIPS 180-4 and FIPS 198-1, over `Nat` with explicit reduction `% 2^32`
(resp. `% 2^64`).
-/

namespace Itv

/-! ## Machine-word helpers (32- and 64-bit wrapping arithmetic) -/

/-- Truncate to a 32-bit word. -/
def w32 (x : Nat) : Nat := x % 4294967296

/-- Truncate to a 64-bit word. -/
def w64 (x : Nat) : Nat := x % 18446744073709551616

/-- Right rotation of a 32-bit word. -/
def rotr32 (n x : Nat) : Nat := w32 ((x >>> n) ||| (x <<< (32 - n)))

/-- Right rotation of a 64-bit word. -/
def rotr64 (n x : Nat) : Nat := w64 ((x >>> n) ||| (x <<< (64 - n)))

/-- Big-endian 4-byte serialization of a 32-bit word. -/
def be32 (x : Nat) : List Nat :=
  [x >>> 24 % 256, x >>> 16 % 256, x >>> 8 % 256, x % 256]

/-- Big-endian 8-byte serialization of a 64-bit word. -/
def be64 (x : Nat) : List Nat :=
  [x >>> 56 % 256, x >>> 48 % 256, x >>> 40 % 256, x >>> 32 % 256,
   x >>> 24 % 256, x >>> 16 % 256, x >>> 8 % 256, x % 256]

/-- Big-endian 16-byte serialization of a 128-bit length field (SHA-512). -/
def be128 (x : Nat) : List Nat :=
  be64 (x >>> 64) ++ be64 (x % 18446744073709551616)

/-- Split a byte list into chunks of `sz` bytes (fuel-driven so that the
kernel can reduce it; `fuel ≥ l.length` suffices). -/
def chunksGo (sz : Nat) : Nat → List Nat → List (List Nat)
  | 0, _ => []
  | _, [] => []
  | fuel + 1, l => l.take sz :: chunksGo sz fuel (l.drop sz)

/-- Split a byte list into `sz`-byte blocks. -/
def chunks (sz : Nat) (l : List Nat) : List (List Nat) :=
  chunksGo sz l.length l

/-- Parse big-endian 32-bit words from bytes. -/
def words32 : List Nat → List Nat
  | b0 :: b1 :: b2 :: b3 :: rest =>
      (b0 <<< 24 ||| b1 <<< 16 ||| b2 <<< 8 ||| b3) :: words32 rest
  | _ => []

/-- Parse big-endian 64-bit words from bytes. -/
def words64 : List Nat → List Nat
  | b0 :: b1 :: b2 :: b3 :: b4 :: b5 :: b6 :: b7 :: rest =>
      (b0 <<< 56 ||| b1 <<< 48 ||| b2 <<< 40 ||| b3 <<< 32 |||
       b4 <<< 24 ||| b5 <<< 16 ||| b6 <<< 8 ||| b7) :: words64 rest
  | _ => []

/-! ## SHA-256 (FIPS 180-4), as used by Go `crypto/sha256` -/

/-- The 64 SHA-256 round constants. -/
def sha256K : List Nat :=
  [1116352408, 1899447441, 3049323471, 3921009573,
   961987163, 1508970993, 2453635748, 2870763221,
   3624381080, 310598401, 607225278, 1426881987,
   1925078388, 2162078206, 2614888103, 3248222580,
   3835390401, 4022224774, 264347078, 604807628,
   770255983, 1249150122, 1555081692, 1996064986,
   2554220882, 2821834349, 2952996808, 3210313671,
   3336571891, 3584528711, 113926993, 338241895,
   666307205, 773529912, 1294757372, 1396182291,
   1695183700, 1986661051, 2177026350, 2456956037,
   2730485921, 2820302411, 3259730800, 3345764771,
   3516065817, 3600352804, 4094571909, 275423344,
   430227734, 506948616, 659060556, 883997877,
   958139571, 1322822218, 1537002063, 1747873779,
   1955562222, 2024104815, 2227730452, 2361852424,
   2428436474, 2756734187, 3204031479, 3329325298]

/-- Eight-word SHA-256 (or five-word SHA-1, eight-word SHA-512) running state. -/
structure HState where
  a : Nat
  b : Nat
  c : Nat
  d : Nat
  e : Nat
  f : Nat
  g : Nat
  h : Nat
deriving Repr, DecidableEq

/-- SHA-256 initial hash value. -/
def sha256IV : HState :=
  ⟨1779033703, 3144134277, 1013904242, 2773480762,
   1359893119, 2600822924, 528734635, 1541459225⟩

/-- SHA-256 message schedule: extend 16 words to 64. -/
def sha256Schedule (ws : List Nat) : List Nat :=
  (List.range 48).foldl
    (fun w i =>
      let t := i + 16
      let s0 := w32 (rotr32 7 (w.getD (t - 15) 0) ^^^ rotr32 18 (w.getD (t - 15) 0) ^^^
                     (w.getD (t - 15) 0 >>> 3))
      let s1 := w32 (rotr32 17 (w.getD (t - 2) 0) ^^^ rotr32 19 (w.getD (t - 2) 0) ^^^
                     (w.getD (t - 2) 0 >>> 10))
      w ++ [w32 (w.getD (t - 16) 0 + s0 + w.getD (t - 7) 0 + s1)])
    ws

/-- One SHA-256 round. -/
def sha256Round (st : HState) (kt wt : Nat) : HState :=
  let s1 := rotr32 6 st.e ^^^ rotr32 11 st.e ^^^ rotr32 25 st.e
  let chv := (st.e &&& st.f) ^^^ ((st.e ^^^ 4294967295) &&& st.g)
  let t1 := w32 (st.h + s1 + chv + kt + wt)
  let s0 := rotr32 2 st.a ^^^ rotr32 13 st.a ^^^ rotr32 22 st.a
  let maj := (st.a &&& st.b) ^^^ (st.a &&& st.c) ^^^ (st.b &&& st.c)
  let t2 := w32 (s0 + maj)
  ⟨w32 (t1 + t2), st.a, st.b, st.c, w32 (st.d + t1), st.e, st.f, st.g⟩

/-- Compress one 64-byte block into the state. -/
def sha256Compress (st : HState) (block : List Nat) : HState :=
  let w := sha256Schedule (words32 block)
  let fin := (sha256K.zip w).foldl (fun s p => sha256Round s p.1 p.2) st
  ⟨w32 (st.a + fin.a), w32 (st.b + fin.b), w32 (st.c + fin.c), w32 (st.d + fin.d),
   w32 (st.e + fin.e), w32 (st.f + fin.f), w32 (st.g + fin.g), w32 (st.h + fin.h)⟩

/-- SHA-256 padding: `128`, zeros to 56 mod 64, then the 64-bit bit length. -/
def sha256Pad (msg : List Nat) : List Nat :=
  msg ++ [128] ++ List.replicate ((119 - msg.length % 64) % 64) 0 ++ be64 (8 * msg.length)

/-- SHA-256 digest (32 bytes) of a byte list. -/
def sha256 (msg : List Nat) : List Nat :=
  let st := (chunks 64 (sha256Pad msg)).foldl sha256Compress sha256IV
  be32 st.a ++ be32 st.b ++ be32 st.c ++ be32 st.d ++
  be32 st.e ++ be32 st.f ++ be32 st.g ++ be32 st.h

/-! ## SHA-1 (FIPS 180-4), as used by Go `crypto/sha1` -/

/-- SHA-1 message schedule: extend 16 words to 80 (with the rotate-left of SHA-1). -/
def sha1Schedule (ws : List Nat) : List Nat :=
  (List.range 64).foldl
    (fun w i =>
      let t := i + 16
      let x := w.getD (t - 3) 0 ^^^ w.getD (t - 8) 0 ^^^ w.getD (t - 14) 0 ^^^ w.getD (t - 16) 0
      w ++ [rotr32 31 x])
    ws

/-- SHA-1 round function and constant for round `t`. -/
def sha1FK (t b c d : Nat) : Nat × Nat :=
  if t < 20 then ((b &&& c) ||| ((b ^^^ 4294967295) &&& d), 1518500249)
  else if t < 40 then (b ^^^ c ^^^ d, 1859775393)
  else if t < 60 then ((b &&& c) ||| (b &&& d) ||| (c &&& d), 2400959708)
  else (b ^^^ c ^^^ d, 3395469782)

/-- Compress one 64-byte block for SHA-1 (state in fields `a..e`). -/
def sha1Compress (st : HState) (block : List Nat) : HState :=
  let w := sha1Schedule (words32 block)
  let fin := (List.range 80).foldl
    (fun s t =>
      let fk := sha1FK t s.b s.c s.d
      let tmp := w32 (rotr32 27 s.a + fk.1 + s.e + fk.2 + w.getD t 0)
      ⟨tmp, s.a, rotr32 2 s.b, s.c, s.d, 0, 0, 0⟩)
    st
  ⟨w32 (st.a + fin.a), w32 (st.b + fin.b), w32 (st.c + fin.c),
   w32 (st.d + fin.d), w32 (st.e + fin.e), 0, 0, 0⟩

/-- SHA-1 digest (20 bytes) of a byte list (padding is identical to SHA-256). -/
def sha1 (msg : List Nat) : List Nat :=
  let iv : HState := ⟨1732584193, 4023233417, 2562383102, 271733878, 3285377520, 0, 0, 0⟩
  let st := (chunks 64 (sha256Pad msg)).foldl sha1Compress iv
  be32 st.a ++ be32 st.b ++ be32 st.c ++ be32 st.d ++ be32 st.e

/-! ## SHA-512 (FIPS 180-4), as used by Go `crypto/sha512` -/

/-- The 80 SHA-512 round constants. -/
def sha512K : List Nat :=
  [4794697086780616226, 8158064640168781261, 13096744586834688815, 16840607885511220156,
   4131703408338449720, 6480981068601479193, 10538285296894168987, 12329834152419229976,
   15566598209576043074, 1334009975649890238, 2608012711638119052, 6128411473006802146,
   8268148722764581231, 9286055187155687089, 11230858885718282805, 13951009754708518548,
   16472876342353939154, 17275323862435702243, 1135362057144423861, 2597628984639134821,
   3308224258029322869, 5365058923640841347, 6679025012923562964, 8573033837759648693,
   10970295158949994411, 12119686244451234320, 12683024718118986047, 13788192230050041572,
   14330467153632333762, 15395433587784984357, 489312712824947311, 1452737877330783856,
   2861767655752347644, 3322285676063803686, 5560940570517711597, 5996557281743188959,
   7280758554555802590, 8532644243296465576, 9350256976987008742, 10552545826968843579,
   11727347734174303076, 12113106623233404929, 14000437183269869457, 14369950271660146224,
   15101387698204529176, 15463397548674623760, 17586052441742319658, 1182934255886127544,
   1847814050463011016, 2177327727835720531, 2830643537854262169, 3796741975233480872,
   4115178125766777443, 5681478168544905931, 6601373596472566643, 7507060721942968483,
   8399075790359081724, 8693463985226723168, 9568029438360202098, 10144078919501101548,
   10430055236837252648, 11840083180663258601, 13761210420658862357, 14299343276471374635,
   14566680578165727644, 15097957966210449927, 16922976911328602910, 17689382322260857208,
   500013540394364858, 748580250866718886, 1242879168328830382, 1977374033974150939,
   2944078676154940804, 3659926193048069267, 4368137639120453308, 4836135668995329356,
   5532061633213252278, 6448918945643986474, 6902733635092675308, 7801388544844847127]

/-- SHA-512 initial hash value. -/
def sha512IV : HState :=
  ⟨7640891576956012808, 13503953896175478587, 4354685564936845355, 11912009170470909681,
   5840696475078001361, 11170449401992604703, 2270897969802886507, 6620516959819538809⟩

/-- SHA-512 message schedule: extend 16 64-bit words to 80. -/
def sha512Schedule (ws : List Nat) : List Nat :=
  (List.range 64).foldl
    (fun w i =>
      let t := i + 16
      let s0 := w64 (rotr64 1 (w.getD (t - 15) 0) ^^^ rotr64 8 (w.getD (t - 15) 0) ^^^
                     (w.getD (t - 15) 0 >>> 7))
      let s1 := w64 (rotr64 19 (w.getD (t - 2) 0) ^^^ rotr64 61 (w.getD (t - 2) 0) ^^^
                     (w.getD (t - 2) 0 >>> 6))
      w ++ [w64 (w.getD (t - 16) 0 + s0 + w.getD (t - 7) 0 + s1)])
    ws

/-- One SHA-512 round. -/
def sha512Round (st : HState) (kt wt : Nat) : HState :=
  let s1 := rotr64 14 st.e ^^^ rotr64 18 st.e ^^^ rotr64 41 st.e
  let chv := (st.e &&& st.f) ^^^ ((st.e ^^^ 18446744073709551615) &&& st.g)
  let t1 := w64 (st.h + s1 + chv + kt + wt)
  let s0 := rotr64 28 st.a ^^^ rotr64 34 st.a ^^^ rotr64 39 st.a
  let maj := (st.a &&& st.b) ^^^ (st.a &&& st.c) ^^^ (st.b &&& st.c)
  let t2 := w64 (s0 + maj)
  ⟨w64 (t1 + t2), st.a, st.b, st.c, w64 (st.d + t1), st.e, st.f, st.g⟩

/-- Compress one 128-byte block into the SHA-512 state. -/
def sha512Compress (st : HState) (block : List Nat) : HState :=
  let w := sha512Schedule (words64 block)
  let fin := (sha512K.zip w).foldl (fun s p => sha512Round s p.1 p.2) st
  ⟨w64 (st.a + fin.a), w64 (st.b + fin.b), w64 (st.c + fin.c), w64 (st.d + fin.d),
   w64 (st.e + fin.e), w64 (st.f + fin.f), w64 (st.g + fin.g), w64 (st.h + fin.h)⟩

/-- SHA-512 padding: `128`, zeros to 112 mod 128, then the 128-bit bit length. -/
def sha512Pad (msg : List Nat) : List Nat :=
  msg ++ [128] ++ List.replicate ((239 - msg.length % 128) % 128) 0 ++ be128 (8 * msg.length)

/-- SHA-512 digest (64 bytes) of a byte list. -/
def sha512 (msg : List Nat) : List Nat :=
  let st := (chunks 128 (sha512Pad msg)).foldl sha512Compress sha512IV
  be64 st.a ++ be64 st.b ++ be64 st.c ++ be64 st.d ++
  be64 st.e ++ be64 st.f ++ be64 st.g ++ be64 st.h

/-! ## HMAC (FIPS 198-1), as used by Go `crypto/hmac` -/

/-- Normalize the HMAC key: hash it if longer than the block size, then
zero-pad to the block size. -/
def hmacKey (hash : List Nat → List Nat) (blockSize : Nat) (key : List Nat) : List Nat :=
  let k := if blockSize < key.length then hash key else key
  k ++ List.replicate (blockSize - k.length) 0

/-- Generic HMAC over a hash function with the given block size. -/
def hmac (hash : List Nat → List Nat) (blockSize : Nat) (key msg : List Nat) : List Nat :=
  let k := hmacKey hash blockSize key
  hash ((k.map (Nat.xor 92)) ++ hash ((k.map (Nat.xor 54)) ++ msg))

/-- HMAC-SHA256 (`hmac.New(sha256.New, key)` in Go). -/
def hmacSha256 (key msg : List Nat) : List Nat := hmac sha256 64 key msg

/-- HMAC-SHA1. -/
def hmacSha1 (key msg : List Nat) : List Nat := hmac sha1 64 key msg

/-- HMAC-SHA512. -/
def hmacSha512 (key msg : List Nat) : List Nat := hmac sha512 128 key msg

/-! ## Hex encoding (`encoding/hex`) and Go string helpers -/

/-- Lowercase hex digit for a nibble (Go `encoding/hex` digit table). -/
def hexDigitChar (n : Nat) : Char := "0123456789abcdef".data.getD (n % 16) '0'

/-- Go `hex.EncodeToString`: two lowercase hex digits per byte. -/
def hexEncode (bs : List Nat) : List Char :=
  bs.flatMap (fun b => [hexDigitChar (b / 16), hexDigitChar b])

/-- Go `[]byte(s)` for the ASCII strings used by this codebase. -/
def strBytes (s : List Char) : List Nat := s.map Char.toNat

/-- Go `strings.TrimPrefix p s`: drop `p` from the front of `s` if present. -/
def trimPre (p s : List Char) : List Char :=
  if p.isPrefixOf s then s.drop p.length else s

/-- ASCII lower-casing of one character (Go `strings.ToLower` restricted to
the ASCII range exercised by the embedded properties). -/
def asciiLower (c : Char) : Char :=
  if 'A' ≤ c ∧ c ≤ 'Z' then Char.ofNat (c.toNat + 32) else c

/-- Go `strings.ToLower` on ASCII strings. -/
def strToLower (s : List Char) : List Char := s.map asciiLower

/-- Go `strings.ToUpper` on ASCII strings. -/
def asciiUpper (c : Char) : Char :=
  if 'a' ≤ c ∧ c ≤ 'z' then Char.ofNat (c.toNat - 32) else c

/-- Go `strings.ToUpper` on ASCII strings. -/
def strToUpper (s : List Char) : List Char := s.map asciiUpper

/-- Go `strings.EqualFold` on ASCII strings: case-insensitive equality. -/
def eqFold (s t : List Char) : Bool := strToLower s == strToLower t

end Itv

namespace Itv

/-! ## Ingress webhook validator
(`src/internal/webhook/validator.go`, package `webhook`, SHA-256-only variant;
this is the validator wired into the server via `New`).  Go `hmac.Equal` is a
constant-time byte comparison; timing is not observable in the embedding, so it
is modelled as equality of the byte strings. -/

namespace WebhookV1

/-- Go `Validator.ValidateSignature`: reject if no secret is configured, strip an
optional `sha256=` prefix, recompute HMAC-SHA256 over the payload, hex-encode,
and compare. -/
def ValidateSignature (secret : List Char) (payload : List Nat) (signature : List Char) :
    Except (List Char) Unit :=
  if secret = [] then .error "webhook secret not configured".data
  else
    let sig := trimPre "sha256=".data signature
    let expected := hexEncode (hmacSha256 (strBytes secret) payload)
    if sig = expected then .ok () else .error "invalid signature".data

/-- Go `Validator.GenerateSignature`: empty for an empty secret, otherwise
`sha256=` followed by the hex HMAC-SHA256 digest of the payload. -/
def GenerateSignature (secret : List Char) (payload : List Nat) : List Char :=
  if secret = [] then []
  else "sha256=".data ++ hexEncode (hmacSha256 (strBytes secret) payload)

end WebhookV1

/-! ## Multi-algorithm webhook validator
(the second `package webhook` validator variant in the sources, shipped next to
the dispatcher tests: algorithm chosen from the signature prefix on validation
and from the configured algorithm name on generation). -/

namespace WebhookV2

/-- The multi-algorithm `Validator.ValidateSignature`: pick the hash from the
signature prefix (`sha1=` / `sha256=` / `sha512=`, defaulting to SHA-256 with an
empty prefix), strip the prefix, recompute, compare. -/
def ValidateSignature (secret : List Char) (payload : List Nat) (signature : List Char) :
    Except (List Char) Unit :=
  if secret = [] then .error "webhook secret not configured".data
  else
    let hp : (List Nat → List Nat → List Nat) × List Char :=
      if "sha1=".data.isPrefixOf signature then (hmacSha1, "sha1=".data)
      else if "sha256=".data.isPrefixOf signature then (hmacSha256, "sha256=".data)
      else if "sha512=".data.isPrefixOf signature then (hmacSha512, "sha512=".data)
      else (hmacSha256, [])
    let sig := trimPre hp.2 signature
    let expected := hexEncode (hp.1 (strBytes secret) payload)
    if sig = expected then .ok () else .error "invalid signature".data

/-- The multi-algorithm `Validator.GenerateSignature(payload, algorithm)`:
an empty algorithm defaults to `SHA-256`; the upper-cased algorithm name selects
the hash and the `sha1`/`sha256`/`sha512` token, any other name falls back to
SHA-256; the result is `<token>=<hex digest>`. -/
def GenerateSignature (secret : List Char) (payload : List Nat) (algorithm : List Char) :
    List Char :=
  if secret = [] then []
  else
    let alg := if algorithm = [] then "SHA-256".data else algorithm
    let hp : (List Nat → List Nat → List Nat) × List Char :=
      if strToUpper alg = "SHA-1".data then (hmacSha1, "sha1".data)
      else if strToUpper alg = "SHA-256".data then (hmacSha256, "sha256".data)
      else if strToUpper alg = "SHA-512".data then (hmacSha512, "sha512".data)
      else (hmacSha256, "sha256".data)
    hp.2 ++ "=".data ++ hexEncode (hp.1 (strBytes secret) payload)

end WebhookV2

/-! ## Dedup cache (`package cache`, `cache.Manager`)
Times are rationals; the Go `map[string]*Entry` is modelled as an association
list keyed by `Entry.key` (Go maps have unique keys; iteration order is
immaterial to the properties proved here). -/

namespace Cache

/-- A cache entry (`cache.Entry`). -/
structure Entry where
  key : List Char
  data : List Nat
  expiresAt : ℚ
  createdAt : ℚ
deriving Repr, DecidableEq

/-- The in-memory cache (`Manager.cache`). -/
abbrev CacheMap := List Entry

/-- Map lookup on the modelled `map[string]*Entry`. -/
def cacheLookup (m : CacheMap) (k : List Char) : Option Entry :=
  m.find? (fun e => e.key == k)

/-- Map insertion (replace an existing key, else append). -/
def cacheInsert (m : CacheMap) (e : Entry) : CacheMap :=
  if m.any (fun x => x.key == e.key) then
    m.map (fun x => if x.key == e.key then e else x)
  else m ++ [e]

/-- Map deletion. -/
def cacheErase (m : CacheMap) (k : List Char) : CacheMap :=
  m.filter (fun e => !(e.key == k))

/-- Go `Manager.IsDuplicate`: a hit on a live entry answers true; a hit on an
expired entry (`now` strictly after `expires_at`) removes it and answers
false. -/
def IsDuplicate (m : CacheMap) (now : ℚ) (eventKey : List Char) : Bool × CacheMap :=
  match cacheLookup m eventKey with
  | none => (false, m)
  | some e => if e.expiresAt < now then (false, cacheErase m eventKey) else (true, m)

/-- Go `Manager.AddEvent`: insert with `expires_at = now + ttl`. -/
def AddEvent (m : CacheMap) (now ttl : ℚ) (eventKey : List Char) (eventData : List Nat) :
    CacheMap :=
  cacheInsert m ⟨eventKey, eventData, now + ttl, now⟩

/-- Go `Manager.GenerateEventKey`: hex SHA-256 of
`streamerID ++ ":" ++ eventID ++ ":" ++ decimal unix timestamp`. -/
def GenerateEventKey (streamerID eventID : List Char) (unixTs : Int) : List Char :=
  hexEncode (sha256 (strBytes (streamerID ++ ":".data ++ eventID ++ ":".data ++ (toString unixTs).data)))

/-- Go `Manager.saveCache`: serialize the cache map as a list of entries (the JSON
encoding of that list is a faithful bijection and is elided). -/
def saveCache (m : CacheMap) : List Entry := m

/-- Go `Manager.loadCache`: rebuild the map from the persisted entry list, keeping
only entries with `now` strictly before `expires_at`. -/
def loadCache (entries : List Entry) (now : ℚ) : CacheMap :=
  entries.foldl (fun m e => if now < e.expiresAt then cacheInsert m e else m) []

end Cache

/-! ## Configuration (`package config`)
The streamer/global-webhook structs carry the `target_webhook_*` fields used by
`server.go` (spec §3 StreamerSpec). -/

/-- Per-streamer configuration (`config.StreamerConfig`, the
`target_webhook_*` variant used by `server.go`). -/
structure StreamerConfig where
  userID : List Char
  login : List Char
  targetWebhookURL : List Char
  targetWebhookSecret : List Char
  targetWebhookHeader : List Char
  targetWebhookHashing : List Char
  tagFilter : List (List Char)
  additionalTags : List (List Char)
deriving Repr, DecidableEq

/-- Global fallback webhook configuration (`config.GlobalWebhookConfig`). -/
structure GlobalWebhookConfig where
  enabled : Bool
  url : List Char
  targetWebhookSecret : List Char
  targetWebhookHeader : List Char
  targetWebhookHashing : List Char
deriving Repr, DecidableEq

/-- TLS block of the server configuration. -/
structure TLSConfig where
  enabled : Bool
  domains : List (List Char)
  certDir : List Char
deriving Repr, DecidableEq

/-- Go `config.ServerConfig`. -/
structure ServerConfig where
  listenAddr : List Char
  port : Int
  tls : TLSConfig
deriving Repr, DecidableEq

/-- Go `config.TwitchConfig`. -/
structure TwitchConfig where
  clientID : List Char
  clientSecret : List Char
  webhookSecret : List Char
  tokenFile : List Char
deriving Repr, DecidableEq

/-- Go `config.RetryConfig`; durations in (rational) nanoseconds, the backoff
factor an exact rational standing for the Go `float64`. -/
structure RetryConfig where
  maxAttempts : Nat
  initialDelay : ℚ
  maxDelay : ℚ
  backoffFactor : ℚ
  stateFile : List Char
deriving Repr, DecidableEq

/-- Go `config.OutputConfig`. -/
structure OutputConfig where
  enabled : Bool
  filePath : List Char
  maxLines : Int
deriving Repr, DecidableEq

/-- Go `config.Config` (the fields the verified components read). -/
structure Config where
  server : ServerConfig
  twitch : TwitchConfig
  streamers : List (List Char × StreamerConfig)
  retry : RetryConfig
  output : OutputConfig
  globalWebhook : GlobalWebhookConfig
deriving Repr, DecidableEq

/-- Go `config.validateConfig`.  The data-directory creation step can fail on the
filesystem; its success is the input `mkdirOk`. -/
def validateConfig (cfg : Config) (mkdirOk : Bool) : Except (List Char) Unit :=
  if cfg.twitch.clientID = [] then .error "twitch.client_id is required".data
  else if cfg.twitch.clientSecret = [] then .error "twitch.client_secret is required".data
  else if cfg.twitch.webhookSecret = [] then .error "twitch.webhook_secret is required".data
  else if cfg.server.port ≤ 0 ∨ 65535 < cfg.server.port then
    .error "server.port must be between 1 and 65535".data
  else if cfg.server.tls.enabled ∧ cfg.server.tls.domains = [] then
    .error "server.tls.domains is required when TLS is enabled".data
  else if cfg.retry.maxAttempts = 0 then
    .error "retry.max_attempts must be greater than 0".data
  else if cfg.retry.backoffFactor ≤ 1 then
    .error "retry.backoff_factor must be greater than 1.0".data
  else if !mkdirOk then .error "failed to create data directory".data
  else .ok ()

/-- The environment-variable overrides read by `config.applyEnvOverrides`
(`none` models an unset or empty variable; the port is the already-parsed
`%d` value, an unparsable port leaves the configuration unchanged). -/
structure EnvVars where
  listenAddr : Option (List Char)
  port : Option Int
  clientID : Option (List Char)
  clientSecret : Option (List Char)
  webhookSecret : Option (List Char)
  tlsEnabled : Bool
deriving Repr, DecidableEq

/-- Go `config.applyEnvOverrides` (never fails in the source). -/
def applyEnvOverrides (cfg : Config) (env : EnvVars) : Config :=
  { cfg with
    server :=
      { cfg.server with
        listenAddr := env.listenAddr.getD cfg.server.listenAddr
        port := env.port.getD cfg.server.port
        tls := { cfg.server.tls with
                 enabled := cfg.server.tls.enabled || env.tlsEnabled } }
    twitch :=
      { cfg.twitch with
        clientID := env.clientID.getD cfg.twitch.clientID
        clientSecret := env.clientSecret.getD cfg.twitch.clientSecret
        webhookSecret := env.webhookSecret.getD cfg.twitch.webhookSecret } }

/-- Go `config.LoadConfig`: TOML decoding is a filesystem effect and enters as the
`decoded` input (a missing file leaves the defaults); then environment
overrides, then validation. -/
def LoadConfig (decoded : Except (List Char) Config) (env : EnvVars) (mkdirOk : Bool) :
    Except (List Char) Config :=
  match decoded with
  | .error e => .error ("failed to decode config file: ".data ++ e)
  | .ok c =>
    let c2 := applyEnvOverrides c env
    match validateConfig c2 mkdirOk with
    | .error e => .error ("configuration validation failed: ".data ++ e)
    | .ok _ => .ok c2

/-- Go `Watcher.reloadConfig` (`src/internal/config/watcher.go`): load, validate,
run the reload callback (`reloadFuncOk` is its success), and only then replace
the stored snapshot.  The returned flag records whether the reload callback —
the path that fires the registered `UpdateConfig` hooks — was invoked. -/
def reloadConfig (current : Option Config) (decoded : Except (List Char) Config)
    (env : EnvVars) (mkdirOk : Bool) (reloadFuncOk : Bool) : Option Config × Bool :=
  match LoadConfig decoded env mkdirOk with
  | .error _ => (current, false)
  | .ok newConfig =>
    match validateConfig newConfig mkdirOk with
    | .error _ => (current, false)
    | .ok _ =>
      if reloadFuncOk then (some newConfig, true) else (current, true)

end Itv


namespace Itv

/-! ## EventSub processor (`package twitch`, `twitch.Processor`)
JSON decoding of the request body is a (bijective) serialization step; the
handler models are stated over the decoded notification value.  The
`MessageType*` constants carry Twitch EventSub wire values. -/

/-- Go `twitch.StreamOnlineEvent`; `started_at` is carried as unix seconds (the
only use, `GenerateEventKey`, formats `timestamp.Unix()`). -/
structure StreamOnlineEvent where
  id : List Char
  broadcasterUserID : List Char
  broadcasterUserLogin : List Char
  broadcasterUserName : List Char
  eventType : List Char
  startedAt : Int
deriving Repr, DecidableEq

/-- The zero value of `StreamOnlineEvent` (Go `json.Unmarshal` of `null`
leaves the zero struct). -/
def zeroStreamOnlineEvent : StreamOnlineEvent := ⟨[], [], [], [], [], 0⟩

/-- Go `twitch.EventSubHeaders` (extracted verbatim from the HTTP headers). -/
structure EventSubHeaders where
  messageID : List Char
  messageRetry : List Char
  messageType : List Char
  messageSignature : List Char
  messageTimestamp : List Char
  subscriptionType : List Char
  subscriptionVersion : List Char
deriving Repr, DecidableEq

/-- The subscription object inside an EventSub notification. -/
structure EventSubSubscription where
  id : List Char
  subType : List Char
  status : List Char
deriving Repr, DecidableEq

/-- A decoded EventSub notification body. -/
structure EventSubNotification where
  subscription : EventSubSubscription
  challenge : List Char
  event : Option StreamOnlineEvent
deriving Repr, DecidableEq

/-- Go `twitch.ProcessedEvent`. -/
structure ProcessedEvent where
  peType : List Char
  challenge : List Char
  event : Option StreamOnlineEvent
  action : List Char
deriving Repr, DecidableEq

/-- Go `Processor.findStreamerConfig`: first streamer whose `user_id` matches
exactly or whose `login` matches case-insensitively (`strings.EqualFold`).
Go map iteration order is unspecified; the association-list order stands in
for it (the configurations used in the theorems below have at most one
matching entry, making the order immaterial). -/
def findStreamerConfig (streamers : List (List Char × StreamerConfig))
    (userID login : List Char) : Option StreamerConfig :=
  (streamers.find? (fun p => p.2.userID == userID || eqFold p.2.login login)).map (fun p => p.2)

/-- Go `Processor.handleVerification`. -/
def handleVerification (n : EventSubNotification) : ProcessedEvent :=
  ⟨"verification".data, n.challenge, none, "respond".data⟩

/-- Go `Processor.handleStreamOnline`: decode the event (missing ⇒ zero value),
locate the streamer, classify `revoke` (unconfigured) or `process`. -/
def handleStreamOnline (streamers : List (List Char × StreamerConfig))
    (n : EventSubNotification) : ProcessedEvent :=
  let ev := n.event.getD zeroStreamOnlineEvent
  match findStreamerConfig streamers ev.broadcasterUserID ev.broadcasterUserLogin with
  | none => ⟨"unconfigured_streamer".data, [], none, "revoke".data⟩
  | some _ => ⟨"stream.online".data, [], some ev, "process".data⟩

/-- Go `Processor.handleNotification`: only `stream.online` is supported. -/
def handleNotification (streamers : List (List Char × StreamerConfig))
    (n : EventSubNotification) : ProcessedEvent :=
  if n.subscription.subType = "stream.online".data then handleStreamOnline streamers n
  else ⟨"unsupported".data, [], none, "ignore".data⟩

/-- Go `Processor.handleRevocation`. -/
def handleRevocation : ProcessedEvent := ⟨"revocation".data, [], none, "ignore".data⟩

/-- Go `Processor.ProcessNotification`: dispatch on the message-type header. -/
def ProcessNotification (streamers : List (List Char × StreamerConfig))
    (headers : EventSubHeaders) (n : EventSubNotification) :
    Except (List Char) ProcessedEvent :=
  if headers.messageType = "webhook_callback_verification".data then .ok (handleVerification n)
  else if headers.messageType = "notification".data then .ok (handleNotification streamers n)
  else if headers.messageType = "revocation".data then .ok handleRevocation
  else .error ("unknown message type".data)

/-! ## Outbound dispatch (`package webhook`) -/

/-- The outbound payload assembled by `Dispatcher.CreatePayload` (enrichment
fields are attached later and do not affect the verified properties). -/
structure WebhookPayload where
  streamerLogin : List Char
  streamerName : List Char
  streamerID : List Char
  url : List Char
  timestamp : ℚ
  additionalTags : List (List Char)
deriving Repr, DecidableEq

/-- Go `webhook.DispatchRequest` (the `target_webhook_*` variant used by
`server.go` and `retry.Manager`). -/
structure DispatchRequest where
  webhookURL : List Char
  payload : WebhookPayload
  webhookSecret : List Char
  webhookHeader : List Char
  webhookHashing : List Char
  streamerKey : List Char
  attempt : Nat
  nextRetry : ℚ
deriving Repr, DecidableEq

/-- Go `Dispatcher.CreatePayload` from the streamer configuration and the event
fields (`broadcaster_user_name` and `broadcaster_user_id` from the event map,
with fallbacks to the configured login / event id). -/
def CreatePayload (sc : StreamerConfig) (ev : StreamOnlineEvent) (now : ℚ) : WebhookPayload :=
  let name := if ev.broadcasterUserName = [] then sc.login else ev.broadcasterUserName
  let sid := if sc.userID = [] then ev.broadcasterUserID else sc.userID
  ⟨sc.login, name, sid, "https://twitch.tv/".data ++ sc.login, now, sc.additionalTags⟩

/-- Modelled from the spec: the signature-header step of `Dispatcher.Dispatch`
in the per-target-header variant.  The dispatcher source matching the
`server.go` call sites (fields `WebhookSecret`/`WebhookHeader`/`WebhookHashing`)
is not under `src/` — only its callers, its `DispatchRequest` consumers and the
multi-algorithm `GenerateSignature` it uses are — so the request-building step
follows spec §4.8: marshal the payload to JSON (`payloadBytes` below), always
set `Content-Type` and `User-Agent`, and, iff the secret is non-empty, set the
per-target header (name defaulting to `X-Hub-Signature-256`, spec §3) to the
value produced by the in-source multi-algorithm `GenerateSignature`. -/
def dispatchHeaders (req : DispatchRequest) (payloadBytes : List Nat) :
    List (List Char × List Char) :=
  let base := [("Content-Type".data, "application/json".data),
               ("User-Agent".data, "itsjustintv/1.6".data)]
  if req.webhookSecret = [] then base
  else
    let headerName :=
      if req.webhookHeader = [] then "X-Hub-Signature-256".data else req.webhookHeader
    base ++ [(headerName, WebhookV2.GenerateSignature req.webhookSecret payloadBytes req.webhookHashing)]

/-! ## Server event processing (`src/internal/server/server.go`) -/

/-- Outcome of the (network-dependent) enrichment call inside
`processStreamEvent`: success, the authoritative tag-filter block, or a soft
failure that continues with partial data. -/
inductive EnrichOutcome
  | ok
  | blocked
  | softFail
deriving Repr, DecidableEq

/-- The external effects `processStreamEvent` depends on: the enrichment
outcome and whether the initial dispatch succeeds. -/
structure StreamEnv where
  enrich : EnrichOutcome
  dispatchSuccess : Bool
deriving Repr, DecidableEq

/-- The dedup TTL wired in `server.New` (`2 * time.Hour`, in nanoseconds). -/
def cacheTTL : ℚ := 7200000000000

/-- The result of `Server.processStreamEvent`: the returned error (if any),
the updated dedup cache, the dispatch calls made, and the requests handed to
`retryManager.AddRequest`. -/
structure ProcessOutcome where
  err : Option (List Char)
  cache : Cache.CacheMap
  dispatched : List DispatchRequest
  retried : List DispatchRequest
deriving Repr, DecidableEq

/-- Go `Server.processStreamEvent`: dedup check, cache insertion, the (case-
sensitive) streamer lookup of `server.go`, payload creation, enrichment,
destination resolution with the global-webhook fallback, dispatch, and
retry enqueueing on failure.  The stored entry data (the JSON-marshalled
event, never read back anywhere in the program) is elided as `[]`. -/
def processStreamEvent (cfg : Config) (cache : Cache.CacheMap) (now : ℚ)
    (ev : StreamOnlineEvent) (env : StreamEnv) : ProcessOutcome :=
  let eventKey := Cache.GenerateEventKey ev.broadcasterUserID ev.id ev.startedAt
  let dup := Cache.IsDuplicate cache now eventKey
  if dup.1 then ⟨none, dup.2, [], []⟩
  else
    let cache2 := Cache.AddEvent dup.2 now cacheTTL eventKey []
    match cfg.streamers.find? (fun p =>
        p.2.userID == ev.broadcasterUserID || p.2.login == ev.broadcasterUserLogin) with
    | none => ⟨some "streamer configuration not found".data, cache2, [], []⟩
    | some kv =>
      let streamerKey := kv.1
      let sc := kv.2
      let payload := CreatePayload sc ev now
      if env.enrich = .blocked then ⟨none, cache2, [], []⟩
      else
        let useGlobal := sc.targetWebhookURL = [] ∧ cfg.globalWebhook.enabled ∧
          cfg.globalWebhook.url ≠ []
        let webhookURL := if useGlobal then cfg.globalWebhook.url else sc.targetWebhookURL
        let webhookSecret :=
          if useGlobal then cfg.globalWebhook.targetWebhookSecret else sc.targetWebhookSecret
        let webhookHeader :=
          if useGlobal then cfg.globalWebhook.targetWebhookHeader else sc.targetWebhookHeader
        let webhookHashing :=
          if useGlobal then cfg.globalWebhook.targetWebhookHashing else sc.targetWebhookHashing
        if webhookURL = [] then
          ⟨some ("no webhook URL configured for streamer: ".data ++ streamerKey), cache2, [], []⟩
        else
          let req : DispatchRequest :=
            ⟨webhookURL, payload, webhookSecret, webhookHeader, webhookHashing, streamerKey, 1, 0⟩
          if env.dispatchSuccess then ⟨none, cache2, [req], []⟩
          else ⟨none, cache2, [req], [req]⟩

/-- An HTTP response as written by the handler (status code, content type,
body). -/
structure HttpResponse where
  status : Nat
  contentType : List Char
  body : List Char
deriving Repr, DecidableEq

/-- The JSON body `{"status":"processed"}`. -/
def jsonProcessed : List Char := "\x7b\"status\":\"processed\"\x7d".data

/-- The JSON body `{"status":"ignored"}`. -/
def jsonIgnored : List Char := "\x7b\"status\":\"ignored\"\x7d".data

/-- Go `Server.handleTwitchWebhook` for a POST request: validate the HMAC over
the raw body, process the decoded notification, then answer according to the
classified action.  Returns the response, the updated dedup cache, the
dispatch calls and the retry enqueues. -/
def handleTwitchWebhook (cfg : Config) (cache : Cache.CacheMap) (now : ℚ)
    (body : List Nat) (headers : EventSubHeaders) (notif : EventSubNotification)
    (env : StreamEnv) : HttpResponse × Cache.CacheMap × List DispatchRequest × List DispatchRequest :=
  match WebhookV1.ValidateSignature cfg.twitch.webhookSecret body headers.messageSignature with
  | .error _ => (⟨401, "text/plain".data, "Unauthorized".data⟩, cache, [], [])
  | .ok _ =>
    match ProcessNotification cfg.streamers headers notif with
    | .error _ => (⟨500, "text/plain".data, "Internal server error".data⟩, cache, [], [])
    | .ok pe =>
      if pe.action = "respond".data then
        (⟨200, "text/plain".data, pe.challenge⟩, cache, [], [])
      else if pe.action = "process".data then
        match pe.event with
        | none => (⟨500, "text/plain".data, "Internal server error".data⟩, cache, [], [])
        | some ev =>
          let out := processStreamEvent cfg cache now ev env
          match out.err with
          | some _ =>
            (⟨500, "text/plain".data, "Internal server error".data⟩,
             out.cache, out.dispatched, out.retried)
          | none =>
            (⟨200, "application/json".data, jsonProcessed⟩, out.cache, out.dispatched, out.retried)
      else if pe.action = "revoke".data then
        (⟨410, [], []⟩, cache, [], [])
      else if pe.action = "ignore".data then
        (⟨200, "application/json".data, jsonIgnored⟩, cache, [], [])
      else
        (⟨500, "text/plain".data, "Internal server error".data⟩, cache, [], [])

/-! ## Retry manager (`src/internal/retry/manager.go`) -/

/-- The delay part of `Manager.calculateNextRetry`:
`initial_delay * backoff_factor^(attempt-1)`, capped at `max_delay`
(`math.Pow` modelled exactly over `ℚ`; the manager only ever calls this with
`attempt ≥ 1`). -/
def calcDelay (rc : RetryConfig) (attempt : Nat) : ℚ :=
  let delay := rc.initialDelay * rc.backoffFactor ^ (attempt - 1)
  if rc.maxDelay < delay then rc.maxDelay else delay

/-- Go `Manager.calculateNextRetry`: `time.Now().Add(delay)`. -/
def calculateNextRetry (rc : RetryConfig) (now : ℚ) (attempt : Nat) : ℚ :=
  now + calcDelay rc attempt

/-- Go `Manager.AddRequest`: increment the attempt counter, stamp the next retry
time, append to the queue. -/
def AddRequest (rc : RetryConfig) (queue : List DispatchRequest) (req : DispatchRequest)
    (now : ℚ) : List DispatchRequest :=
  queue ++ [{ req with
              attempt := req.attempt + 1
              nextRetry := calculateNextRetry rc now (req.attempt + 1) }]

/-- The ready predicate of `Manager.processReadyRetries`:
`now.After(req.NextRetry) && req.Attempt <= maxAttempts`. -/
def retryReady (rc : RetryConfig) (now : ℚ) (req : DispatchRequest) : Bool :=
  decide (req.nextRetry < now) && decide (req.attempt ≤ rc.maxAttempts)

/-- Go `Manager.processReadyRetries`: split the queue into the ready requests
(handed to concurrent dispatch tasks) and the remaining queue; items beyond
`max_attempts` are dropped. -/
def processReadyRetries (rc : RetryConfig) (queue : List DispatchRequest) (now : ℚ) :
    List DispatchRequest × List DispatchRequest :=
  (queue.filter (retryReady rc now),
   queue.filter (fun req => !(retryReady rc now req) && decide (req.attempt ≤ rc.maxAttempts)))

/-- Go `Manager.saveState`: the persisted state file wraps the queue. -/
structure RetryStateFile where
  queue : List DispatchRequest
deriving Repr, DecidableEq

/-- Go `Manager.saveState` (JSON encoding of the wrapper, elided as a faithful
bijection). -/
def saveState (queue : List DispatchRequest) : RetryStateFile := ⟨queue⟩

/-- Go `Manager.loadState`: replace the in-memory queue with the persisted one. -/
def loadState (st : RetryStateFile) : List DispatchRequest := st.queue

/-! ### Retry manager as a transition system
The retry subsystem state: the queue guarded by the mutex, plus the dispatch
tasks currently in flight (spawned by `processReadyRetries`, each ending in
`retryRequest` with either success or a failing dispatch that re-enqueues). -/

/-- Retry subsystem state: the queue and the in-flight dispatch tasks. -/
structure RetryState where
  queue : List DispatchRequest
  inflight : List DispatchRequest
deriving Repr, DecidableEq

/-- One observable step of the retry subsystem:
initial enqueue from the server (a failed first dispatch, `Attempt = 1`),
a 30-second tick (`processReadyRetries`), a successful in-flight retry, or a
failed in-flight retry re-enqueued via `AddRequest`. -/
inductive RetryStep (rc : RetryConfig) : RetryState → RetryState → Prop
  | addNew (s : RetryState) (req : DispatchRequest) (now : ℚ) (h1 : req.attempt = 1) :
      RetryStep rc s ⟨AddRequest rc s.queue req now, s.inflight⟩
  | tick (s : RetryState) (now : ℚ) :
      RetryStep rc s
        ⟨(processReadyRetries rc s.queue now).2,
         s.inflight ++ (processReadyRetries rc s.queue now).1⟩
  | dispatchOk (s : RetryState) (req : DispatchRequest) (hmem : req ∈ s.inflight) :
      RetryStep rc s ⟨s.queue, s.inflight.erase req⟩
  | dispatchFail (s : RetryState) (req : DispatchRequest) (now : ℚ) (hmem : req ∈ s.inflight) :
      RetryStep rc s ⟨AddRequest rc s.queue req now, s.inflight.erase req⟩

/-- States reachable from the empty retry subsystem. -/
inductive RetryReachable (rc : RetryConfig) : RetryState → Prop
  | init : RetryReachable rc ⟨[], []⟩
  | step (s t : RetryState) (hs : RetryReachable rc s) (hst : RetryStep rc s t) :
      RetryReachable rc t

/-! ## Enricher language detection (`twitch.Enricher.detectLanguage`) -/

/-- The language label table of `detectLanguage` (one `switch` case per
well-known label, on the lower-cased tag). -/
def langOf (tag : List Char) : Option (List Char) :=
  let t := strToLower tag
  if t = "english".data then some "en".data
  else if t = "german".data ∨ t = "deutsch".data then some "de".data
  else if t = "spanish".data ∨ t = "español".data then some "es".data
  else if t = "french".data ∨ t = "français".data then some "fr".data
  else if t = "italian".data ∨ t = "italiano".data then some "it".data
  else if t = "portuguese".data ∨ t = "português".data then some "pt".data
  else if t = "russian".data ∨ t = "русский".data then some "ru".data
  else if t = "japanese".data ∨ t = "日本語".data then some "ja".data
  else if t = "korean".data ∨ t = "한국어".data then some "ko".data
  else if t = "chinese".data ∨ t = "中文".data then some "zh".data
  else none

/-- Go `Enricher.detectLanguage`: first tag with a known language label wins,
else the broadcaster language if non-empty, else `"en"`. -/
def detectLanguage (tags : List (List Char)) (broadcasterLanguage : List Char) : List Char :=
  match tags.findSome? langOf with
  | some code => code
  | none => if broadcasterLanguage ≠ [] then broadcasterLanguage else "en".data

end Itv


namespace Itv

/-! ## General lemmas about the embedded primitives -/

/-- A SHA-256 digest is never empty. -/
theorem sha256_ne_nil (msg : List Nat) : sha256 msg ≠ [] := by
  unfold sha256 be32
  simp

/-- An HMAC-SHA256 digest is never empty. -/
theorem hmacSha256_ne_nil (k m : List Nat) : hmacSha256 k m ≠ [] :=
  sha256_ne_nil _

/-- Unfolding of `hexEncode` on a cons. -/
theorem hexEncode_cons (b : Nat) (bs : List Nat) :
    hexEncode (b :: bs) = hexDigitChar (b / 16) :: hexDigitChar b :: hexEncode bs := rfl

/-- Every hex digit character is one of the sixteen lowercase digits. -/
theorem hexDigitChar_ne_s (n : Nat) : hexDigitChar n ≠ 's' := by
  unfold hexDigitChar
  have h : n % 16 < 16 := Nat.mod_lt _ (by norm_num)
  have hall : ∀ m, m < 16 → "0123456789abcdef".data.getD m '0' ≠ 's' := by decide
  exact hall _ h

/-- The string `sha256=` is never a prefix of a non-empty hex encoding. -/
theorem not_sha256_pre_hexEncode (b : Nat) (bs : List Nat) :
    ¬ "sha256=".data <+: hexEncode (b :: bs) := by
  rw [hexEncode_cons]
  intro hpre
  have : 's' = hexDigitChar (b / 16) := by
    have h1 : ('s' :: "ha256=".data) <+: hexDigitChar (b / 16) :: hexDigitChar b :: hexEncode bs := hpre
    exact (List.cons_prefix_cons.mp h1).1
  exact hexDigitChar_ne_s (b / 16) this.symm

/-- Stripping a present prefix with `trimPre` removes exactly the prefix. -/
theorem trimPre_append (p s : List Char) : trimPre p (p ++ s) = s := by
  unfold trimPre
  rw [if_pos, List.drop_left]
  rw [List.isPrefixOf_iff_prefix]
  exact List.prefix_append _ _

/-- Stripping an absent prefix with `trimPre` is the identity. -/
theorem trimPre_of_not_pre {p s : List Char} (h : ¬ p <+: s) : trimPre p s = s := by
  unfold trimPre
  rw [if_neg]
  rwa [List.isPrefixOf_iff_prefix]

/-- Stripping `sha256=` leaves a (non-empty) hex encoding unchanged. -/
theorem trimPre_hexEncode (b : Nat) (bs : List Nat) :
    trimPre "sha256=".data (hexEncode (b :: bs)) = hexEncode (b :: bs) :=
  trimPre_of_not_pre (not_sha256_pre_hexEncode b bs)

/-- The ingress validator accepts the bare hex digest of the body HMAC. -/
theorem validate_hex_ok (secret : List Char) (payload : List Nat) (h : secret ≠ []) :
    WebhookV1.ValidateSignature secret payload
      (hexEncode (hmacSha256 (strBytes secret) payload)) = .ok () := by
  unfold WebhookV1.ValidateSignature
  rw [if_neg h]
  obtain ⟨b, bs, hbs⟩ : ∃ b bs, hmacSha256 (strBytes secret) payload = b :: bs := by
    rcases hd : hmacSha256 (strBytes secret) payload with _ | ⟨b, bs⟩
    · exact absurd hd (hmacSha256_ne_nil _ _)
    · exact ⟨b, bs, rfl⟩
  have hne : ¬ "sha256=".data <+: hexEncode (hmacSha256 (strBytes secret) payload) := by
    rw [hbs]
    exact not_sha256_pre_hexEncode b bs
  simp [trimPre_of_not_pre hne]

/-- The ingress validator accepts the `sha256=`-prefixed hex digest of the
body HMAC. -/
theorem validate_prefixed_ok (secret : List Char) (payload : List Nat) (h : secret ≠ []) :
    WebhookV1.ValidateSignature secret payload
      ("sha256=".data ++ hexEncode (hmacSha256 (strBytes secret) payload)) = .ok () := by
  unfold WebhookV1.ValidateSignature
  rw [if_neg h]
  simp
  simpa using trimPre_append "sha256=".data (hexEncode (hmacSha256 (strBytes secret) payload))

end Itv


namespace Itv

/-! ## Claim theorems -/

/-- C9: language detection returns `de` on the tag list `["Deutsch"]`, `en` on
`["English","Gaming"]`, the broadcaster language `fr` on the empty tag list,
and `en` on the empty tag list with empty broadcaster language. -/
theorem C9_language_detection :
    detectLanguage ["Deutsch".data] [] = "de".data ∧
    detectLanguage ["English".data, "Gaming".data] [] = "en".data ∧
    detectLanguage [] "fr".data = "fr".data ∧
    detectLanguage [] [] = "en".data := by
  refine ⟨?_, ?_, ?_, ?_⟩ <;> decide

/-- C5: for every attempt number `n ≥ 1`, the backoff delay computed before
the `n`-th re-enqueue (`calcDelay`, the delay part of `calculateNextRetry`)
equals `min(initial_delay * backoff_factor^(n-1), max_delay)`. -/
theorem C5_backoff_formula (rc : RetryConfig) (n : Nat) (h : 1 ≤ n) :
    calcDelay rc n = min (rc.initialDelay * rc.backoffFactor ^ (n - 1)) rc.maxDelay := by
  unfold calcDelay
  simp only []
  split
  · rename_i hlt
    rw [min_eq_right (le_of_lt hlt)]
  · rename_i hnlt
    rw [min_eq_left (le_of_not_lt hnlt)]

/-- Witness for C5 at the design-default retry policy and attempt 3. -/
theorem C5_backoff_formula_witness :
    1 ≤ 3 ∧
    calcDelay ⟨3, 1000000000, 300000000000, 2, []⟩ 3 =
      min ((⟨3, 1000000000, 300000000000, 2, []⟩ : RetryConfig).initialDelay *
           (⟨3, 1000000000, 300000000000, 2, []⟩ : RetryConfig).backoffFactor ^ (3 - 1))
          (⟨3, 1000000000, 300000000000, 2, []⟩ : RetryConfig).maxDelay :=
  ⟨by norm_num, C5_backoff_formula ⟨3, 1000000000, 300000000000, 2, []⟩ 3 (by norm_num)⟩

/-- C7: an attempted configuration reload whose new configuration fails
loading or validation leaves the stored snapshot unchanged and never invokes
the reload callback (hence no `UpdateConfig` hook fires). -/
theorem C7_reload_failure_unchanged (current : Option Config)
    (decoded : Except (List Char) Config) (env : EnvVars) (mkdirOk reloadFuncOk : Bool)
    (h : ∃ e, LoadConfig decoded env mkdirOk = .error e) :
    reloadConfig current decoded env mkdirOk reloadFuncOk = (current, false) := by
  obtain ⟨e, he⟩ := h
  unfold reloadConfig
  rw [he]

/-- Witness for C7: a snapshot survives a reload whose decode step fails. -/
theorem C7_reload_failure_unchanged_witness :
    (∃ e, LoadConfig (.error "bad toml".data) ⟨none, none, none, none, none, false⟩ true =
      .error e) ∧
    reloadConfig none (.error "bad toml".data) ⟨none, none, none, none, none, false⟩ true true =
      (none, false) :=
  ⟨⟨"failed to decode config file: ".data ++ "bad toml".data, rfl⟩,
   C7_reload_failure_unchanged none (.error "bad toml".data)
     ⟨none, none, none, none, none, false⟩ true true
     ⟨"failed to decode config file: ".data ++ "bad toml".data, rfl⟩⟩

end Itv


namespace Itv

/-! ## C8: persistence round trips -/

/-- Inserting an entry whose key is absent appends it. -/
theorem cacheInsert_absent (m : Cache.CacheMap) (e : Cache.Entry)
    (h : ∀ x ∈ m, x.key ≠ e.key) : Cache.cacheInsert m e = m ++ [e] := by
  unfold Cache.cacheInsert
  rw [if_neg]
  intro hany
  rw [List.any_eq_true] at hany
  obtain ⟨x, hx, hk⟩ := hany
  exact h x hx (by simpa using hk)

/-- The rebuild loop of `loadCache` over key-distinct entries inserts exactly
the unexpired entries in order. -/
theorem loadCache_aux (now : ℚ) :
    ∀ (entries acc : List Cache.Entry),
      ((acc ++ entries).map Cache.Entry.key).Nodup →
      entries.foldl (fun m e => if now < e.expiresAt then Cache.cacheInsert m e else m) acc =
        acc ++ entries.filter (fun e => decide (now < e.expiresAt))
  | [], acc, _ => by simp
  | e :: rest, acc, h => by
    have hsub : ((acc ++ rest).map Cache.Entry.key).Nodup := by
      refine List.Nodup.sublist (List.Sublist.map _ ?_) h
      exact List.Sublist.append_left (List.sublist_cons_self e rest) acc
    by_cases hx : now < e.expiresAt
    · have hkey : ∀ x ∈ acc, x.key ≠ e.key := by
        intro x hxm heq
        have hmap : (acc.map Cache.Entry.key ++ (e :: rest).map Cache.Entry.key).Nodup := by
          simpa using h
        have hdisj := List.disjoint_of_nodup_append hmap
        exact hdisj (List.mem_map_of_mem _ hxm) (by simp [heq])
      have hnd2 : (((acc ++ [e]) ++ rest).map Cache.Entry.key).Nodup := by
        simpa [List.append_assoc] using h
      rw [List.foldl_cons, if_pos hx, cacheInsert_absent acc e hkey,
          loadCache_aux now rest (acc ++ [e]) hnd2]
      simp [hx, List.filter_cons]
    · rw [List.foldl_cons, if_neg hx, loadCache_aux now rest acc hsub]
      simp [hx, List.filter_cons]

/-- C8: persisting the retry queue and loading it back returns the same queue
(retry items carry no TTL), and persisting the dedup cache and loading it back
returns exactly the entries that have not expired by load time. -/
theorem C8_persistence_roundtrip (q : List DispatchRequest) (m : Cache.CacheMap) (now : ℚ)
    (h : (m.map Cache.Entry.key).Nodup) :
    loadState (saveState q) = q ∧
    Cache.loadCache (Cache.saveCache m) now =
      m.filter (fun e => decide (now < e.expiresAt)) := by
  refine ⟨rfl, ?_⟩
  unfold Cache.loadCache Cache.saveCache
  simpa using loadCache_aux now m [] (by simpa using h)

/-- Witness for C8 on a one-entry live cache and a one-item queue. -/
theorem C8_persistence_roundtrip_witness :
    (([⟨"k1".data, [1], 5, 0⟩] : Cache.CacheMap).map Cache.Entry.key).Nodup ∧
    (loadState (saveState [(⟨"u".data, ⟨[], [], [], [], 0, []⟩, [], [], [], "sk".data, 2, 3⟩ :
        DispatchRequest)]) =
      [(⟨"u".data, ⟨[], [], [], [], 0, []⟩, [], [], [], "sk".data, 2, 3⟩ : DispatchRequest)] ∧
     Cache.loadCache (Cache.saveCache [⟨"k1".data, [1], 5, 0⟩]) 1 =
       ([⟨"k1".data, [1], 5, 0⟩] : Cache.CacheMap).filter
         (fun e => decide ((1 : ℚ) < e.expiresAt))) :=
  ⟨by decide,
   C8_persistence_roundtrip
     [(⟨"u".data, ⟨[], [], [], [], 0, []⟩, [], [], [], "sk".data, 2, 3⟩ : DispatchRequest)]
     [⟨"k1".data, [1], 5, 0⟩] 1 (by decide)⟩

end Itv


namespace Itv

/-! ## C3: outbound signature header; C10: ingress prefix handling -/

/-- C3: for every outbound dispatch request whose declared hashing algorithm
is one of SHA-1 / SHA-256 / SHA-512, the outbound headers are exactly the two
base headers plus — iff the per-target secret is non-empty — the per-target
signature header (name defaulting to `X-Hub-Signature-256`) whose value is
`<algo-token>=<hex>` with the token and the HMAC digest both matching the
declared algorithm applied to the marshalled payload bytes. -/
theorem C3_outbound_signature_header (req : DispatchRequest) (payloadBytes : List Nat)
    (halg : req.webhookHashing = "SHA-1".data ∨ req.webhookHashing = "SHA-256".data ∨
            req.webhookHashing = "SHA-512".data) :
    dispatchHeaders req payloadBytes =
      [("Content-Type".data, "application/json".data),
       ("User-Agent".data, "itsjustintv/1.6".data)] ++
      (if req.webhookSecret = [] then []
       else
         [((if req.webhookHeader = [] then "X-Hub-Signature-256".data else req.webhookHeader),
           (if req.webhookHashing = "SHA-1".data then
              "sha1=".data ++ hexEncode (hmacSha1 (strBytes req.webhookSecret) payloadBytes)
            else if req.webhookHashing = "SHA-256".data then
              "sha256=".data ++ hexEncode (hmacSha256 (strBytes req.webhookSecret) payloadBytes)
            else
              "sha512=".data ++ hexEncode (hmacSha512 (strBytes req.webhookSecret) payloadBytes)))]) := by
  unfold dispatchHeaders WebhookV2.GenerateSignature
  by_cases hs : req.webhookSecret = []
  · simp [hs]
  · rw [if_neg hs, if_neg hs]
    rcases halg with h1 | h1 | h1 <;> rw [h1]
    · have hne : ("SHA-1".data : List Char) ≠ [] := by decide
      have hup : strToUpper "SHA-1".data = "SHA-1".data := by decide
      simp [hne, hup, hs]
    · have hne : ("SHA-256".data : List Char) ≠ [] := by decide
      have hup : strToUpper "SHA-256".data = "SHA-256".data := by decide
      have hd1 : ("SHA-256".data : List Char) ≠ "SHA-1".data := by decide
      simp [hne, hup, hd1, hs]
    · have hne : ("SHA-512".data : List Char) ≠ [] := by decide
      have hup : strToUpper "SHA-512".data = "SHA-512".data := by decide
      have hd1 : ("SHA-512".data : List Char) ≠ "SHA-1".data := by decide
      have hd2 : ("SHA-512".data : List Char) ≠ "SHA-256".data := by decide
      simp [hne, hup, hd1, hd2, hs]

/-- The concrete dispatch request used by the C3 witness. -/
def c3req : DispatchRequest :=
  ⟨"https://example.com/hook".data, ⟨[], [], [], [], 0, []⟩, "sec".data, [],
   "SHA-256".data, "k".data, 1, 0⟩

/-- Witness for C3 at a SHA-256 target with the default header name. -/
theorem C3_outbound_signature_header_witness :
    (c3req.webhookHashing = "SHA-1".data ∨ c3req.webhookHashing = "SHA-256".data ∨
     c3req.webhookHashing = "SHA-512".data) ∧
    dispatchHeaders c3req [1, 2, 3] =
      [("Content-Type".data, "application/json".data),
       ("User-Agent".data, "itsjustintv/1.6".data)] ++
      (if c3req.webhookSecret = [] then []
       else
         [((if c3req.webhookHeader = [] then "X-Hub-Signature-256".data else c3req.webhookHeader),
           (if c3req.webhookHashing = "SHA-1".data then
              "sha1=".data ++ hexEncode (hmacSha1 (strBytes c3req.webhookSecret) [1, 2, 3])
            else if c3req.webhookHashing = "SHA-256".data then
              "sha256=".data ++ hexEncode (hmacSha256 (strBytes c3req.webhookSecret) [1, 2, 3])
            else
              "sha512=".data ++ hexEncode (hmacSha512 (strBytes c3req.webhookSecret) [1, 2, 3])))]) :=
  ⟨Or.inr (Or.inl rfl), C3_outbound_signature_header c3req [1, 2, 3] (Or.inr (Or.inl rfl))⟩

/-- C10: with a non-empty secret, the ingress check accepts the correct digest
both bare and with the `sha256=` prefix; with an empty configured secret every
signature is rejected with the "not configured" error. -/
theorem C10_prefix_and_empty_secret (secret : List Char) (payload : List Nat)
    (sig : List Char) (h : secret ≠ []) :
    (WebhookV1.ValidateSignature secret payload
        (hexEncode (hmacSha256 (strBytes secret) payload)) = .ok () ∧
     WebhookV1.ValidateSignature secret payload
        ("sha256=".data ++ hexEncode (hmacSha256 (strBytes secret) payload)) = .ok ()) ∧
    WebhookV1.ValidateSignature [] payload sig =
      .error "webhook secret not configured".data :=
  ⟨⟨validate_hex_ok secret payload h, validate_prefixed_ok secret payload h⟩, rfl⟩

/-- Witness for C10 at a concrete secret, payload and stray signature. -/
theorem C10_prefix_and_empty_secret_witness :
    ("s".data : List Char) ≠ [] ∧
    ((WebhookV1.ValidateSignature "s".data [1, 2]
        (hexEncode (hmacSha256 (strBytes "s".data) [1, 2])) = .ok () ∧
      WebhookV1.ValidateSignature "s".data [1, 2]
        ("sha256=".data ++ hexEncode (hmacSha256 (strBytes "s".data) [1, 2])) = .ok ()) ∧
     WebhookV1.ValidateSignature [] [1, 2] "x".data =
       .error "webhook secret not configured".data) :=
  ⟨by decide, C10_prefix_and_empty_secret "s".data [1, 2] "x".data (by decide)⟩

end Itv


namespace Itv

/-! ## C1: the ingress MAC check -/

/-- A non-empty byte list hex-encodes to a non-empty string. -/
theorem hexEncode_ne_nil {bs : List Nat} (h : bs ≠ []) : hexEncode bs ≠ [] := by
  rcases bs with _ | ⟨b, rest⟩
  · exact absurd rfl h
  · rw [hexEncode_cons]
    simp

/-- With a configured secret, the ingress validator is exactly the comparison
of the prefix-stripped signature with the hex HMAC-SHA256 of the body. -/
theorem validate_eq_compare (secret : List Char) (payload : List Nat) (signature : List Char)
    (h : secret ≠ []) :
    WebhookV1.ValidateSignature secret payload signature =
      (if trimPre "sha256=".data signature =
          hexEncode (hmacSha256 (strBytes secret) payload)
       then .ok () else .error "invalid signature".data) := by
  unfold WebhookV1.ValidateSignature
  rw [if_neg h]

/-- A failed signature validation makes the handler answer 401 with no state
change, no dispatch, and no retry enqueue. -/
theorem handler_of_validate_error (cfg : Config) (cache : Cache.CacheMap) (now : ℚ)
    (body : List Nat) (headers : EventSubHeaders) (notif : EventSubNotification)
    (env : StreamEnv) (e : List Char)
    (h : WebhookV1.ValidateSignature cfg.twitch.webhookSecret body headers.messageSignature =
      .error e) :
    handleTwitchWebhook cfg cache now body headers notif env =
      (⟨401, "text/plain".data, "Unauthorized".data⟩, cache, [], []) := by
  unfold handleTwitchWebhook
  rw [h]

/-- A successful signature validation never leads to a 401 status. -/
theorem handler_status_of_validate_ok (cfg : Config) (cache : Cache.CacheMap) (now : ℚ)
    (body : List Nat) (headers : EventSubHeaders) (notif : EventSubNotification)
    (env : StreamEnv)
    (h : WebhookV1.ValidateSignature cfg.twitch.webhookSecret body headers.messageSignature =
      .ok ()) :
    (handleTwitchWebhook cfg cache now body headers notif env).1.status ≠ 401 := by
  unfold handleTwitchWebhook
  rw [h]
  rcases hpn : ProcessNotification cfg.streamers headers notif with e | pe <;> simp only [hpn]
  · simp
  · split_ifs
    · simp
    · rcases hev : pe.event with _ | ev <;> simp only [hev]
      · simp
      · rcases hout : (processStreamEvent cfg cache now ev env).err with _ | e2 <;>
          simp [hout]
    · simp
    · simp
    · simp

/-- C1 (amended): with a configured secret, the ingress check recomputes
HMAC-SHA256 over the raw body alone; the request is answered 401 exactly when
the supplied signature (after stripping an optional `sha256=` prefix) differs
from the lowercase hex of that body digest, the 401 answer carries no state
change, and a missing signature is always rejected. -/
theorem C1_amended (cfg : Config) (cache : Cache.CacheMap) (now : ℚ) (body : List Nat)
    (headers : EventSubHeaders) (notif : EventSubNotification) (env : StreamEnv)
    (h : cfg.twitch.webhookSecret ≠ []) :
    ((handleTwitchWebhook cfg cache now body headers notif env).1.status = 401 ↔
       trimPre "sha256=".data headers.messageSignature ≠
         hexEncode (hmacSha256 (strBytes cfg.twitch.webhookSecret) body)) ∧
    (trimPre "sha256=".data headers.messageSignature ≠
         hexEncode (hmacSha256 (strBytes cfg.twitch.webhookSecret) body) →
       handleTwitchWebhook cfg cache now body headers notif env =
         (⟨401, "text/plain".data, "Unauthorized".data⟩, cache, [], [])) ∧
    (headers.messageSignature = [] →
       (handleTwitchWebhook cfg cache now body headers notif env).1.status = 401) := by
  have hval := validate_eq_compare cfg.twitch.webhookSecret body headers.messageSignature h
  by_cases hcmp : trimPre "sha256=".data headers.messageSignature =
      hexEncode (hmacSha256 (strBytes cfg.twitch.webhookSecret) body)
  · rw [if_pos hcmp] at hval
    have hstat := handler_status_of_validate_ok cfg cache now body headers notif env hval
    refine ⟨?_, ?_, ?_⟩
    · simp [hstat, hcmp]
    · intro hn
      exact absurd hcmp hn
    · intro hsig
      exfalso
      rw [hsig] at hcmp
      have hnil : trimPre "sha256=".data ([] : List Char) = [] := by decide
      rw [hnil] at hcmp
      exact hexEncode_ne_nil (hmacSha256_ne_nil _ _) hcmp.symm
  · rw [if_neg hcmp] at hval
    have h401 := handler_of_validate_error cfg cache now body headers notif env _ hval
    refine ⟨?_, fun _ => h401, fun _ => by rw [h401]⟩
    rw [h401]
    simp [hcmp]

end Itv


namespace Itv

/-- Concrete ingress secret for the C1 counterexample. -/
def c1secret : List Char := "s3cr3t".data

/-- Concrete raw request body for the C1 counterexample. -/
def c1body : List Nat := strBytes "eventbody".data

/-- The signature the code accepts: hex HMAC-SHA256 over the body alone. -/
def c1sig : List Char := hexEncode (hmacSha256 (strBytes c1secret) c1body)

/-- Concrete configuration for the C1 counterexample. -/
def c1cfg : Config :=
  ⟨⟨"0.0.0.0".data, 8080, ⟨false, [], []⟩⟩,
   ⟨"cid".data, "cs".data, c1secret, []⟩,
   [],
   ⟨3, 1000000000, 300000000000, 2, []⟩,
   ⟨false, [], 0⟩,
   ⟨false, [], [], [], []⟩⟩

/-- Concrete EventSub headers for the C1 counterexample (a verification
handshake carrying a non-empty message id and timestamp). -/
def c1headers : EventSubHeaders :=
  ⟨"msg-id-1".data, [], "webhook_callback_verification".data, c1sig,
   "2025-07-13T12:00:00Z".data, "stream.online".data, "1".data⟩

/-- Concrete notification body for the C1 counterexample. -/
def c1notif : EventSubNotification :=
  ⟨⟨"sub1".data, "stream.online".data, "enabled".data⟩, "X42".data, none⟩

set_option maxRecDepth 1000000 in
/-- C1 counterexample: a concrete request whose supplied signature differs
from `HMAC-SHA256(secret, message_id || timestamp || body)` and is
nevertheless accepted (answered 200, not 401), because the code keys the MAC
over the body alone. -/
theorem C1_counterexample :
    c1sig ≠ hexEncode (hmacSha256 (strBytes c1secret)
        (strBytes c1headers.messageID ++ strBytes c1headers.messageTimestamp ++ c1body)) ∧
    handleTwitchWebhook c1cfg [] 0 c1body c1headers c1notif ⟨.ok, true⟩ =
      (⟨200, "text/plain".data, "X42".data⟩, [], [], []) := by
  constructor
  · decide
  · have hv : WebhookV1.ValidateSignature c1cfg.twitch.webhookSecret c1body
        c1headers.messageSignature = .ok () :=
      validate_hex_ok c1secret c1body (by decide)
    unfold handleTwitchWebhook
    rw [hv]
    rfl

/-- Witness for the amended C1 theorem at the concrete counterexample inputs. -/
theorem C1_amended_witness :
    c1cfg.twitch.webhookSecret ≠ [] ∧
    (((handleTwitchWebhook c1cfg [] 0 c1body c1headers c1notif ⟨.ok, true⟩).1.status = 401 ↔
        trimPre "sha256=".data c1headers.messageSignature ≠
          hexEncode (hmacSha256 (strBytes c1cfg.twitch.webhookSecret) c1body)) ∧
     (trimPre "sha256=".data c1headers.messageSignature ≠
          hexEncode (hmacSha256 (strBytes c1cfg.twitch.webhookSecret) c1body) →
        handleTwitchWebhook c1cfg [] 0 c1body c1headers c1notif ⟨.ok, true⟩ =
          (⟨401, "text/plain".data, "Unauthorized".data⟩, [], [], [])) ∧
     (c1headers.messageSignature = [] →
        (handleTwitchWebhook c1cfg [] 0 c1body c1headers c1notif ⟨.ok, true⟩).1.status = 401)) :=
  ⟨by decide, C1_amended c1cfg [] 0 c1body c1headers c1notif ⟨.ok, true⟩ (by decide)⟩

end Itv


namespace Itv

/-! ## Cache and lookup lemmas for the dedup scenarios -/

/-- Deleting a key removes it from lookup. -/
theorem cacheLookup_erase (m : Cache.CacheMap) (k : List Char) :
    Cache.cacheLookup (Cache.cacheErase m k) k = none := by
  unfold Cache.cacheLookup Cache.cacheErase
  rw [List.find?_eq_none]
  intro x hx
  rw [List.mem_filter] at hx
  simpa using hx.2

/-- After a negative duplicate check the checked key is absent from the
returned cache. -/
theorem isDuplicate_false_lookup (m : Cache.CacheMap) (now : ℚ) (k : List Char)
    (h : (Cache.IsDuplicate m now k).1 = false) :
    Cache.cacheLookup (Cache.IsDuplicate m now k).2 k = none := by
  unfold Cache.IsDuplicate at h ⊢
  rcases hl : Cache.cacheLookup m k with _ | e
  · exact hl
  · by_cases hexp : e.expiresAt < now
    · show Cache.cacheLookup
          (if e.expiresAt < now then (false, Cache.cacheErase m k) else (true, m)).2 k = none
      rw [if_pos hexp]
      exact cacheLookup_erase m k
    · exfalso
      rw [hl] at h
      have h2 : (if e.expiresAt < now then (false, Cache.cacheErase m k)
          else (true, m)).1 = false := h
      rw [if_neg hexp] at h2
      simp at h2

/-- Inserting an entry under an absent key makes it the lookup result. -/
theorem cacheLookup_insert_absent (m : Cache.CacheMap) (e : Cache.Entry)
    (h : Cache.cacheLookup m e.key = none) :
    Cache.cacheLookup (Cache.cacheInsert m e) e.key = some e := by
  have habs : ∀ x ∈ m, x.key ≠ e.key := by
    intro x hx heq
    have hnone := List.find?_eq_none.mp h x hx
    simp [heq] at hnone
  rw [cacheInsert_absent m e habs]
  unfold Cache.cacheLookup at h ⊢
  rw [List.find?_append, h]
  simp

/-- The fold comparison `eqFold` is reflexive. -/
theorem eqFold_refl (s : List Char) : eqFold s s = true := by
  simp [eqFold]

/-- If the case-sensitive streamer lookup of `server.go` succeeds, the
case-insensitive lookup of the processor succeeds as well. -/
theorem findStreamerConfig_isSome_of_strong (streamers : List (List Char × StreamerConfig))
    (uid login : List Char) (kv : List Char × StreamerConfig)
    (h : streamers.find? (fun p => p.2.userID == uid || p.2.login == login) = some kv) :
    ∃ sc, findStreamerConfig streamers uid login = some sc := by
  have hmem := List.mem_of_find?_eq_some h
  have hp := List.find?_some h
  have hp2 : kv.2.userID = uid ∨ kv.2.login = login := by
    simpa using hp
  have hw : (kv.2.userID == uid || eqFold kv.2.login login) = true := by
    rcases hp2 with h1 | h2
    · simp [h1]
    · simp [h2, eqFold_refl]
  have hsome : (streamers.find? (fun p =>
      p.2.userID == uid || eqFold p.2.login login)).isSome :=
    List.find?_isSome.mpr ⟨kv, hmem, hw⟩
  obtain ⟨x, hx⟩ := Option.isSome_iff_exists.mp hsome
  refine ⟨x.2, ?_⟩
  unfold findStreamerConfig
  rw [hx]
  rfl

end Itv


namespace Itv

/-! ## Handler path lemmas shared by the dedup and classification scenarios -/

/-- For a `notification` message of type `stream.online` whose streamer is
located by the processor, `ProcessNotification` classifies `process`. -/
theorem processNotification_process (streamers : List (List Char × StreamerConfig))
    (hdr : EventSubHeaders) (notif : EventSubNotification) (ev : StreamOnlineEvent)
    (sc : StreamerConfig)
    (hm : hdr.messageType = "notification".data)
    (hsub : notif.subscription.subType = "stream.online".data)
    (hev : notif.event = some ev)
    (hsc : findStreamerConfig streamers ev.broadcasterUserID ev.broadcasterUserLogin =
      some sc) :
    ProcessNotification streamers hdr notif =
      .ok ⟨"stream.online".data, [], some ev, "process".data⟩ := by
  unfold ProcessNotification handleNotification handleStreamOnline
  have hneq : hdr.messageType ≠ "webhook_callback_verification".data := by
    rw [hm]
    decide
  rw [if_neg hneq, if_pos hm, if_pos hsub, hev]
  simp [hsc]

/-- A positive duplicate check makes `processStreamEvent` a no-op beyond the
lazy expiry of the checked key. -/
theorem processStreamEvent_dup (cfg : Config) (cache : Cache.CacheMap) (now : ℚ)
    (ev : StreamOnlineEvent) (env : StreamEnv)
    (h : (Cache.IsDuplicate cache now
        (Cache.GenerateEventKey ev.broadcasterUserID ev.id ev.startedAt)).1 = true) :
    processStreamEvent cfg cache now ev env =
      ⟨none, (Cache.IsDuplicate cache now
        (Cache.GenerateEventKey ev.broadcasterUserID ev.id ev.startedAt)).2, [], []⟩ := by
  unfold processStreamEvent
  simp [h]

/-- The fresh-event path of `processStreamEvent` for a streamer found by the
case-sensitive lookup with a configured target URL: one dispatch, one cache
insertion, a retry enqueue iff the dispatch fails. -/
theorem processStreamEvent_fresh (cfg : Config) (cache : Cache.CacheMap) (now : ℚ)
    (ev : StreamOnlineEvent) (env : StreamEnv) (kv : List Char × StreamerConfig)
    (hdup : (Cache.IsDuplicate cache now
        (Cache.GenerateEventKey ev.broadcasterUserID ev.id ev.startedAt)).1 = false)
    (hfind : cfg.streamers.find? (fun p =>
        p.2.userID == ev.broadcasterUserID || p.2.login == ev.broadcasterUserLogin) = some kv)
    (hurl : kv.2.targetWebhookURL ≠ [])
    (hblock : env.enrich ≠ .blocked) :
    processStreamEvent cfg cache now ev env =
      ⟨none,
       Cache.AddEvent (Cache.IsDuplicate cache now
         (Cache.GenerateEventKey ev.broadcasterUserID ev.id ev.startedAt)).2 now cacheTTL
         (Cache.GenerateEventKey ev.broadcasterUserID ev.id ev.startedAt) [],
       [⟨kv.2.targetWebhookURL, CreatePayload kv.2 ev now, kv.2.targetWebhookSecret,
         kv.2.targetWebhookHeader, kv.2.targetWebhookHashing, kv.1, 1, 0⟩],
       if env.dispatchSuccess then []
       else [⟨kv.2.targetWebhookURL, CreatePayload kv.2 ev now, kv.2.targetWebhookSecret,
              kv.2.targetWebhookHeader, kv.2.targetWebhookHashing, kv.1, 1, 0⟩]⟩ := by
  unfold processStreamEvent
  by_cases hds : env.dispatchSuccess <;>
    simp [hdup, hfind, hurl, hblock, hds]

/-- With a valid signature and a `process` classification, the handler answer
and effects are those of `processStreamEvent`. -/
theorem handler_process_ok (cfg : Config) (cache : Cache.CacheMap) (now : ℚ)
    (body : List Nat) (hdr : EventSubHeaders) (notif : EventSubNotification)
    (env : StreamEnv) (ev : StreamOnlineEvent)
    (hv : WebhookV1.ValidateSignature cfg.twitch.webhookSecret body hdr.messageSignature =
      .ok ())
    (hpn : ProcessNotification cfg.streamers hdr notif =
      .ok ⟨"stream.online".data, [], some ev, "process".data⟩) :
    handleTwitchWebhook cfg cache now body hdr notif env =
      ((match (processStreamEvent cfg cache now ev env).err with
        | some _ => ⟨500, "text/plain".data, "Internal server error".data⟩
        | none => ⟨200, "application/json".data, jsonProcessed⟩),
       (processStreamEvent cfg cache now ev env).cache,
       (processStreamEvent cfg cache now ev env).dispatched,
       (processStreamEvent cfg cache now ev env).retried) := by
  unfold handleTwitchWebhook
  rw [hv, hpn]
  have hne1 : ("process".data : List Char) ≠ "respond".data := by decide
  simp only [hne1]
  rcases hout : (processStreamEvent cfg cache now ev env).err with _ | e <;>
    simp [hne1, hout]

end Itv


namespace Itv

/-- C2 (amended): two successive validly signed `stream.online` notifications
with the same fingerprint within the dedup TTL are both answered
200 `{"status":"processed"}` — the code does not use the `ignored` body for
duplicates — while the dispatcher is invoked exactly once across the pair. -/
theorem C2_amended (cfg : Config) (cache : Cache.CacheMap) (now1 now2 : ℚ)
    (body1 body2 : List Nat) (hdr1 hdr2 : EventSubHeaders) (notif : EventSubNotification)
    (env1 env2 : StreamEnv) (ev : StreamOnlineEvent) (kv : List Char × StreamerConfig)
    (hv1 : WebhookV1.ValidateSignature cfg.twitch.webhookSecret body1 hdr1.messageSignature =
      .ok ())
    (hv2 : WebhookV1.ValidateSignature cfg.twitch.webhookSecret body2 hdr2.messageSignature =
      .ok ())
    (hm1 : hdr1.messageType = "notification".data)
    (hm2 : hdr2.messageType = "notification".data)
    (hsub : notif.subscription.subType = "stream.online".data)
    (hev : notif.event = some ev)
    (hfind : cfg.streamers.find? (fun p =>
        p.2.userID == ev.broadcasterUserID || p.2.login == ev.broadcasterUserLogin) = some kv)
    (hurl : kv.2.targetWebhookURL ≠ [])
    (hdup : (Cache.IsDuplicate cache now1
        (Cache.GenerateEventKey ev.broadcasterUserID ev.id ev.startedAt)).1 = false)
    (hblock : env1.enrich ≠ .blocked)
    (httl : ¬ (now1 + cacheTTL < now2)) :
    (handleTwitchWebhook cfg cache now1 body1 hdr1 notif env1).1 =
      ⟨200, "application/json".data, jsonProcessed⟩ ∧
    (handleTwitchWebhook cfg
        (handleTwitchWebhook cfg cache now1 body1 hdr1 notif env1).2.1
        now2 body2 hdr2 notif env2).1 =
      ⟨200, "application/json".data, jsonProcessed⟩ ∧
    (handleTwitchWebhook cfg cache now1 body1 hdr1 notif env1).2.2.1.length = 1 ∧
    (handleTwitchWebhook cfg
        (handleTwitchWebhook cfg cache now1 body1 hdr1 notif env1).2.1
        now2 body2 hdr2 notif env2).2.2.1 = [] := by
  obtain ⟨sc, hsc⟩ := findStreamerConfig_isSome_of_strong cfg.streamers
    ev.broadcasterUserID ev.broadcasterUserLogin kv hfind
  set key := Cache.GenerateEventKey ev.broadcasterUserID ev.id ev.startedAt with hkeydef
  set cache2 := Cache.AddEvent (Cache.IsDuplicate cache now1 key).2 now1 cacheTTL key []
    with hcache2
  set req1 : DispatchRequest :=
    ⟨kv.2.targetWebhookURL, CreatePayload kv.2 ev now1, kv.2.targetWebhookSecret,
     kv.2.targetWebhookHeader, kv.2.targetWebhookHashing, kv.1, 1, 0⟩ with hreq1
  have hpn1 := processNotification_process cfg.streamers hdr1 notif ev sc hm1 hsub hev hsc
  have hpn2 := processNotification_process cfg.streamers hdr2 notif ev sc hm2 hsub hev hsc
  have hpse1 := processStreamEvent_fresh cfg cache now1 ev env1 kv hdup hfind hurl hblock
  have hh1 := handler_process_ok cfg cache now1 body1 hdr1 notif env1 ev hv1 hpn1
  rw [hpse1] at hh1
  have hlk : Cache.cacheLookup cache2 key = some ⟨key, [], now1 + cacheTTL, now1⟩ := by
    have h0 : Cache.cacheLookup (Cache.IsDuplicate cache now1 key).2 key = none :=
      isDuplicate_false_lookup cache now1 key hdup
    have h1 := cacheLookup_insert_absent (Cache.IsDuplicate cache now1 key).2
      ⟨key, [], now1 + cacheTTL, now1⟩ h0
    simpa [hcache2, Cache.AddEvent] using h1
  have hdup2 : Cache.IsDuplicate cache2 now2 key = (true, cache2) := by
    unfold Cache.IsDuplicate
    rw [hlk]
    exact if_neg httl
  have hpse2 := processStreamEvent_dup cfg cache2 now2 ev env2
    (by rw [← hkeydef, hdup2])
  rw [← hkeydef, hdup2] at hpse2
  have hh2 := handler_process_ok cfg cache2 now2 body2 hdr2 notif env2 ev hv2 hpn2
  rw [hpse2] at hh2
  refine ⟨?_, ?_, ?_, ?_⟩ <;> rw [hh1] <;> simp [hh2]

end Itv


namespace Itv

/-- Concrete ingress secret for the C2 scenario. -/
def c2secret : List Char := "k1".data

/-- Concrete raw body for the C2 scenario. -/
def c2body : List Nat := strBytes "b".data

/-- The valid signature of the C2 body. -/
def c2sig : List Char := hexEncode (hmacSha256 (strBytes c2secret) c2body)

/-- Concrete streamer configuration for the C2 scenario. -/
def c2sc : StreamerConfig :=
  ⟨"1".data, "bobross".data, "https://example.com/hook".data, [], [], [], [], []⟩

/-- Concrete configuration for the C2 scenario. -/
def c2cfg : Config :=
  ⟨⟨"0.0.0.0".data, 8080, ⟨false, [], []⟩⟩,
   ⟨"cid".data, "cs".data, c2secret, []⟩,
   [("painter".data, c2sc)],
   ⟨3, 1000000000, 300000000000, 2, []⟩,
   ⟨false, [], 0⟩,
   ⟨false, [], [], [], []⟩⟩

/-- Concrete stream-online event for the C2 scenario. -/
def c2ev : StreamOnlineEvent :=
  ⟨"E1".data, "1".data, "bobross".data, "Bob Ross".data, "live".data, 1000⟩

/-- Concrete headers for the C2 scenario. -/
def c2hdr : EventSubHeaders :=
  ⟨"m1".data, [], "notification".data, c2sig, "ts".data, "stream.online".data, "1".data⟩

/-- Concrete notification for the C2 scenario. -/
def c2notif : EventSubNotification :=
  ⟨⟨"sub1".data, "stream.online".data, "enabled".data⟩, [], some c2ev⟩

/-- Concrete environment for the C2 scenario (enrichment fine, dispatch ok). -/
def c2env : StreamEnv := ⟨.ok, true⟩

set_option maxRecDepth 1000000 in
/-- C2 counterexample: on the second of two identical validly signed
notifications the code answers 200 with body `{"status":"processed"}` — not
`{"status":"ignored"}` as claimed — although the dispatcher runs only once. -/
theorem C2_counterexample :
    (handleTwitchWebhook c2cfg [] 0 c2body c2hdr c2notif c2env).1 =
      ⟨200, "application/json".data, jsonProcessed⟩ ∧
    (handleTwitchWebhook c2cfg
        (handleTwitchWebhook c2cfg [] 0 c2body c2hdr c2notif c2env).2.1
        1000 c2body c2hdr c2notif c2env).1 =
      ⟨200, "application/json".data, jsonProcessed⟩ ∧
    jsonProcessed ≠ jsonIgnored ∧
    (handleTwitchWebhook c2cfg [] 0 c2body c2hdr c2notif c2env).2.2.1.length = 1 ∧
    (handleTwitchWebhook c2cfg
        (handleTwitchWebhook c2cfg [] 0 c2body c2hdr c2notif c2env).2.1
        1000 c2body c2hdr c2notif c2env).2.2.1 = [] := by
  have hv : WebhookV1.ValidateSignature c2cfg.twitch.webhookSecret c2body
      c2hdr.messageSignature = .ok () :=
    validate_hex_ok c2secret c2body (by decide)
  have hfind : c2cfg.streamers.find? (fun p =>
      p.2.userID == c2ev.broadcasterUserID || p.2.login == c2ev.broadcasterUserLogin) =
      some ("painter".data, c2sc) := by decide
  have hdup : (Cache.IsDuplicate [] 0
      (Cache.GenerateEventKey c2ev.broadcasterUserID c2ev.id c2ev.startedAt)).1 = false := rfl
  have httl : ¬ ((0 : ℚ) + cacheTTL < 1000) := by norm_num [cacheTTL]
  obtain ⟨sc, hsc⟩ := findStreamerConfig_isSome_of_strong c2cfg.streamers
    c2ev.broadcasterUserID c2ev.broadcasterUserLogin ("painter".data, c2sc) hfind
  have hpn := processNotification_process c2cfg.streamers c2hdr c2notif c2ev sc rfl rfl rfl hsc
  have hpse1 := processStreamEvent_fresh c2cfg [] 0 c2ev c2env ("painter".data, c2sc)
    hdup hfind (by decide) (by decide)
  have hh1 := handler_process_ok c2cfg [] 0 c2body c2hdr c2notif c2env c2ev hv hpn
  rw [hpse1] at hh1
  set key := Cache.GenerateEventKey c2ev.broadcasterUserID c2ev.id c2ev.startedAt with hkeydef
  set cache2 := Cache.AddEvent (Cache.IsDuplicate [] 0 key).2 0 cacheTTL key [] with hcache2
  have hlk : Cache.cacheLookup cache2 key = some ⟨key, [], 0 + cacheTTL, 0⟩ := by
    have h0 : Cache.cacheLookup (Cache.IsDuplicate [] 0 key).2 key = none :=
      isDuplicate_false_lookup [] 0 key hdup
    have h1 := cacheLookup_insert_absent (Cache.IsDuplicate [] 0 key).2
      ⟨key, [], 0 + cacheTTL, 0⟩ h0
    simpa [hcache2, Cache.AddEvent] using h1
  have hdup2 : Cache.IsDuplicate cache2 1000 key = (true, cache2) := by
    unfold Cache.IsDuplicate
    rw [hlk]
    exact if_neg httl
  have hpse2 := processStreamEvent_dup c2cfg cache2 1000 c2ev c2env
    (by rw [← hkeydef, hdup2])
  rw [← hkeydef, hdup2] at hpse2
  have hh2 := handler_process_ok c2cfg cache2 1000 c2body c2hdr c2notif c2env c2ev hv hpn
  rw [hpse2] at hh2
  refine ⟨?_, ?_, by decide, ?_, ?_⟩ <;> rw [hh1] <;> simp [hh2]

/-- Witness for the amended C2 theorem at the concrete scenario inputs. -/
theorem C2_amended_witness :
    (WebhookV1.ValidateSignature c2cfg.twitch.webhookSecret c2body
        c2hdr.messageSignature = .ok ()) ∧
    c2hdr.messageType = "notification".data ∧
    c2notif.subscription.subType = "stream.online".data ∧
    c2notif.event = some c2ev ∧
    c2cfg.streamers.find? (fun p =>
        p.2.userID == c2ev.broadcasterUserID || p.2.login == c2ev.broadcasterUserLogin) =
      some ("painter".data, c2sc) ∧
    ("painter".data, c2sc).2.targetWebhookURL ≠ [] ∧
    (Cache.IsDuplicate [] 0
        (Cache.GenerateEventKey c2ev.broadcasterUserID c2ev.id c2ev.startedAt)).1 = false ∧
    c2env.enrich ≠ .blocked ∧
    ¬ ((0 : ℚ) + cacheTTL < 1000) ∧
    ((handleTwitchWebhook c2cfg [] 0 c2body c2hdr c2notif c2env).1 =
        ⟨200, "application/json".data, jsonProcessed⟩ ∧
     (handleTwitchWebhook c2cfg
         (handleTwitchWebhook c2cfg [] 0 c2body c2hdr c2notif c2env).2.1
         1000 c2body c2hdr c2notif c2env).1 =
       ⟨200, "application/json".data, jsonProcessed⟩ ∧
     (handleTwitchWebhook c2cfg [] 0 c2body c2hdr c2notif c2env).2.2.1.length = 1 ∧
     (handleTwitchWebhook c2cfg
         (handleTwitchWebhook c2cfg [] 0 c2body c2hdr c2notif c2env).2.1
         1000 c2body c2hdr c2notif c2env).2.2.1 = []) :=
  ⟨validate_hex_ok c2secret c2body (by decide), rfl, rfl, rfl, by decide, by decide, rfl,
   by decide, by norm_num [cacheTTL],
   C2_amended c2cfg [] 0 1000 c2body c2body c2hdr c2hdr c2notif c2env c2env c2ev
     ("painter".data, c2sc)
     (validate_hex_ok c2secret c2body (by decide))
     (validate_hex_ok c2secret c2body (by decide))
     rfl rfl rfl rfl (by decide) (by decide) rfl (by decide) (by norm_num [cacheTTL])⟩

end Itv


namespace Itv

/-! ## C6: streamer classification -/

/-- For a `stream.online` notification whose streamer is not found even
case-insensitively, `ProcessNotification` classifies `revoke`. -/
theorem processNotification_revoke (streamers : List (List Char × StreamerConfig))
    (hdr : EventSubHeaders) (notif : EventSubNotification) (ev : StreamOnlineEvent)
    (hm : hdr.messageType = "notification".data)
    (hsub : notif.subscription.subType = "stream.online".data)
    (hev : notif.event = some ev)
    (hnone : findStreamerConfig streamers ev.broadcasterUserID ev.broadcasterUserLogin =
      none) :
    ProcessNotification streamers hdr notif =
      .ok ⟨"unconfigured_streamer".data, [], none, "revoke".data⟩ := by
  unfold ProcessNotification handleNotification handleStreamOnline
  have hneq : hdr.messageType ≠ "webhook_callback_verification".data := by
    rw [hm]
    decide
  rw [if_neg hneq, if_pos hm, if_pos hsub, hev]
  simp [hnone]

/-- A `revoke` classification is answered 410 Gone with no state change. -/
theorem handler_revoke (cfg : Config) (cache : Cache.CacheMap) (now : ℚ)
    (body : List Nat) (hdr : EventSubHeaders) (notif : EventSubNotification)
    (env : StreamEnv)
    (hv : WebhookV1.ValidateSignature cfg.twitch.webhookSecret body hdr.messageSignature =
      .ok ())
    (hpn : ProcessNotification cfg.streamers hdr notif =
      .ok ⟨"unconfigured_streamer".data, [], none, "revoke".data⟩) :
    handleTwitchWebhook cfg cache now body hdr notif env = (⟨410, [], []⟩, cache, [], []) := by
  unfold handleTwitchWebhook
  rw [hv, hpn]
  have h1 : ("revoke".data : List Char) ≠ "respond".data := by decide
  have h2 : ("revoke".data : List Char) ≠ "process".data := by decide
  simp [h1, h2]

/-- When the case-sensitive lookup succeeds and the target URL is set,
`processStreamEvent` reports no error (whether or not the event is a
duplicate, the tag filter blocks, or the dispatch fails). -/
theorem processStreamEvent_err_none (cfg : Config) (cache : Cache.CacheMap) (now : ℚ)
    (ev : StreamOnlineEvent) (env : StreamEnv) (kv : List Char × StreamerConfig)
    (hfind : cfg.streamers.find? (fun p =>
        p.2.userID == ev.broadcasterUserID || p.2.login == ev.broadcasterUserLogin) = some kv)
    (hurl : kv.2.targetWebhookURL ≠ []) :
    (processStreamEvent cfg cache now ev env).err = none := by
  by_cases hdup : (Cache.IsDuplicate cache now
      (Cache.GenerateEventKey ev.broadcasterUserID ev.id ev.startedAt)).1 = true
  · rw [processStreamEvent_dup cfg cache now ev env hdup]
  · have hdup2 : (Cache.IsDuplicate cache now
        (Cache.GenerateEventKey ev.broadcasterUserID ev.id ev.startedAt)).1 = false := by
      simpa using hdup
    by_cases hb : env.enrich = .blocked
    · unfold processStreamEvent
      simp [hdup2, hfind, hb]
    · rw [processStreamEvent_fresh cfg cache now ev env kv hdup2 hfind hurl hb]

/-- The not-found path of `processStreamEvent` (the case-sensitive lookup of
`server.go` fails): an error after the cache insertion, no dispatch. -/
theorem processStreamEvent_notfound (cfg : Config) (cache : Cache.CacheMap) (now : ℚ)
    (ev : StreamOnlineEvent) (env : StreamEnv)
    (hdup : (Cache.IsDuplicate cache now
        (Cache.GenerateEventKey ev.broadcasterUserID ev.id ev.startedAt)).1 = false)
    (hnone : cfg.streamers.find? (fun p =>
        p.2.userID == ev.broadcasterUserID || p.2.login == ev.broadcasterUserLogin) = none) :
    processStreamEvent cfg cache now ev env =
      ⟨some "streamer configuration not found".data,
       Cache.AddEvent (Cache.IsDuplicate cache now
         (Cache.GenerateEventKey ev.broadcasterUserID ev.id ev.startedAt)).2 now cacheTTL
         (Cache.GenerateEventKey ev.broadcasterUserID ev.id ev.startedAt) [],
       [], []⟩ := by
  unfold processStreamEvent
  simp [hdup, hnone]

/-- C6 (amended): the streamer is located by exact `user_id` or
case-insensitive `login`; when no streamer matches the request is answered
410 Gone, and when the `server.go` dispatch lookup (exact `user_id` or
case-sensitive `login`) also succeeds with a configured target URL the request
is answered 200 `{"status":"processed"}`.  (A login differing only in case
passes classification but fails the dispatch lookup; see the
counterexample.) -/
theorem C6_amended (cfg : Config) (cache : Cache.CacheMap) (now : ℚ) (body : List Nat)
    (hdr : EventSubHeaders) (notif : EventSubNotification) (env : StreamEnv)
    (ev : StreamOnlineEvent)
    (hv : WebhookV1.ValidateSignature cfg.twitch.webhookSecret body hdr.messageSignature =
      .ok ())
    (hm : hdr.messageType = "notification".data)
    (hsub : notif.subscription.subType = "stream.online".data)
    (hev : notif.event = some ev) :
    ((∀ p ∈ cfg.streamers,
        ¬ (p.2.userID = ev.broadcasterUserID ∨
           eqFold p.2.login ev.broadcasterUserLogin = true)) →
      handleTwitchWebhook cfg cache now body hdr notif env =
        (⟨410, [], []⟩, cache, [], [])) ∧
    (∀ kv, cfg.streamers.find? (fun p =>
          p.2.userID == ev.broadcasterUserID || p.2.login == ev.broadcasterUserLogin) =
        some kv → kv.2.targetWebhookURL ≠ [] →
      (handleTwitchWebhook cfg cache now body hdr notif env).1 =
        ⟨200, "application/json".data, jsonProcessed⟩) := by
  constructor
  · intro hall
    have hnone : findStreamerConfig cfg.streamers ev.broadcasterUserID
        ev.broadcasterUserLogin = none := by
      unfold findStreamerConfig
      rw [List.find?_eq_none.mpr]
      · rfl
      · intro p hp
        have hno := hall p hp
        rw [not_or] at hno
        simp [hno.1, hno.2]
    exact handler_revoke cfg cache now body hdr notif env hv
      (processNotification_revoke cfg.streamers hdr notif ev hm hsub hev hnone)
  · intro kv hfind hurl
    obtain ⟨sc, hsc⟩ := findStreamerConfig_isSome_of_strong cfg.streamers
      ev.broadcasterUserID ev.broadcasterUserLogin kv hfind
    have hpn := processNotification_process cfg.streamers hdr notif ev sc hm hsub hev hsc
    have hh := handler_process_ok cfg cache now body hdr notif env ev hv hpn
    rw [hh]
    simp [processStreamEvent_err_none cfg cache now ev env kv hfind hurl]

end Itv


namespace Itv

/-- Concrete ingress secret for the C6 counterexample. -/
def c6secret : List Char := "k6".data

/-- Concrete raw body for the C6 counterexample. -/
def c6body : List Nat := strBytes "b6".data

/-- Concrete streamer whose configured login differs from the event login
only in letter case. -/
def c6sc : StreamerConfig :=
  ⟨"1".data, "BobRoss".data, "https://example.com/hook".data, [], [], [], [], []⟩

/-- Concrete configuration for the C6 counterexample. -/
def c6cfg : Config :=
  ⟨⟨"0.0.0.0".data, 8080, ⟨false, [], []⟩⟩,
   ⟨"cid".data, "cs".data, c6secret, []⟩,
   [("painter".data, c6sc)],
   ⟨3, 1000000000, 300000000000, 2, []⟩,
   ⟨false, [], 0⟩,
   ⟨false, [], [], [], []⟩⟩

/-- Concrete event whose broadcaster matches the configured streamer only
case-insensitively (and by a different user id). -/
def c6ev : StreamOnlineEvent :=
  ⟨"E6".data, "2".data, "bobross".data, "Bob Ross".data, "live".data, 1000⟩

/-- Concrete headers for the C6 counterexample (validly signed). -/
def c6hdr : EventSubHeaders :=
  ⟨"m6".data, [], "notification".data,
   hexEncode (hmacSha256 (strBytes c6secret) c6body), "ts".data, "stream.online".data,
   "1".data⟩

/-- Concrete notification for the C6 counterexample. -/
def c6notif : EventSubNotification :=
  ⟨⟨"sub6".data, "stream.online".data, "enabled".data⟩, [], some c6ev⟩

/-- C6 counterexample: a configured streamer matching the event login only in
letter case (and not by user id) is classified `process` by the processor, but
the case-sensitive dispatch lookup fails and the request is answered 500 —
not 200 as claimed. -/
theorem C6_counterexample :
    (handleTwitchWebhook c6cfg [] 0 c6body c6hdr c6notif ⟨.ok, true⟩).1 =
      ⟨500, "text/plain".data, "Internal server error".data⟩ ∧
    (handleTwitchWebhook c6cfg [] 0 c6body c6hdr c6notif ⟨.ok, true⟩).2.2.1 = [] := by
  have hv : WebhookV1.ValidateSignature c6cfg.twitch.webhookSecret c6body
      c6hdr.messageSignature = .ok () :=
    validate_hex_ok c6secret c6body (by decide)
  have hsc : findStreamerConfig c6cfg.streamers c6ev.broadcasterUserID
      c6ev.broadcasterUserLogin = some c6sc := by decide
  have hpn := processNotification_process c6cfg.streamers c6hdr c6notif c6ev c6sc
    rfl rfl rfl hsc
  have hh := handler_process_ok c6cfg [] 0 c6body c6hdr c6notif ⟨.ok, true⟩ c6ev hv hpn
  have hdup : (Cache.IsDuplicate [] 0
      (Cache.GenerateEventKey c6ev.broadcasterUserID c6ev.id c6ev.startedAt)).1 = false := rfl
  have hnone : c6cfg.streamers.find? (fun p =>
      p.2.userID == c6ev.broadcasterUserID || p.2.login == c6ev.broadcasterUserLogin) =
      none := by decide
  have hpse := processStreamEvent_notfound c6cfg [] 0 c6ev ⟨.ok, true⟩ hdup hnone
  rw [hh, hpse]
  exact ⟨rfl, rfl⟩

/-- Witness for the amended C6 theorem at the exact-match scenario inputs. -/
theorem C6_amended_witness :
    (WebhookV1.ValidateSignature c2cfg.twitch.webhookSecret c2body
        c2hdr.messageSignature = .ok ()) ∧
    c2hdr.messageType = "notification".data ∧
    c2notif.subscription.subType = "stream.online".data ∧
    c2notif.event = some c2ev ∧
    (((∀ p ∈ c2cfg.streamers,
         ¬ (p.2.userID = c2ev.broadcasterUserID ∨
            eqFold p.2.login c2ev.broadcasterUserLogin = true)) →
       handleTwitchWebhook c2cfg [] 5 c2body c2hdr c2notif c2env =
         (⟨410, [], []⟩, [], [], [])) ∧
     (∀ kv, c2cfg.streamers.find? (fun p =>
           p.2.userID == c2ev.broadcasterUserID || p.2.login == c2ev.broadcasterUserLogin) =
         some kv → kv.2.targetWebhookURL ≠ [] →
       (handleTwitchWebhook c2cfg [] 5 c2body c2hdr c2notif c2env).1 =
         ⟨200, "application/json".data, jsonProcessed⟩)) :=
  ⟨validate_hex_ok c2secret c2body (by decide), rfl, rfl, rfl,
   C6_amended c2cfg [] 5 c2body c2hdr c2notif c2env c2ev
     (validate_hex_ok c2secret c2body (by decide)) rfl rfl rfl⟩

end Itv


namespace Itv

/-! ## C4: retry queue invariants -/

/-- The backoff delay is nonnegative for a nonnegative initial delay and cap
and a backoff factor above 1. -/
theorem calcDelay_nonneg (rc : RetryConfig) (hinit : 0 ≤ rc.initialDelay)
    (hfac : 1 < rc.backoffFactor) (hmaxd : 0 ≤ rc.maxDelay) (a : Nat) :
    0 ≤ calcDelay rc a := by
  unfold calcDelay
  simp only []
  split
  · exact hmaxd
  · exact mul_nonneg hinit (pow_nonneg (le_of_lt (lt_trans zero_lt_one hfac)) _)

/-- The backoff delay never exceeds the configured cap. -/
theorem calcDelay_le_maxDelay (rc : RetryConfig) (a : Nat) :
    calcDelay rc a ≤ rc.maxDelay := by
  unfold calcDelay
  simp only []
  split
  · exact le_refl _
  · rename_i hn
    exact le_of_not_lt hn

/-- C4 (amended): for a configured retry policy (`max_attempts ≥ 1`,
`backoff_factor > 1`, nonnegative delays), every reachable retry-subsystem
state keeps queued attempt counters at most `max_attempts + 1` — the counter
can transiently exceed `max_attempts` by one, such items are dropped at the
next tick without being dispatched — while every in-flight dispatch has
attempt at most `max_attempts`; re-enqueueing after the scheduled time keeps
`next_attempt_at` monotone non-decreasing; and the computed delay never
exceeds `max_delay`. -/
theorem C4_amended (rc : RetryConfig) (hmax : 1 ≤ rc.maxAttempts)
    (hinit : 0 ≤ rc.initialDelay) (hfac : 1 < rc.backoffFactor)
    (hmaxd : 0 ≤ rc.maxDelay) :
    (∀ s, RetryReachable rc s →
       (∀ r ∈ s.queue, r.attempt ≤ rc.maxAttempts + 1) ∧
       (∀ r ∈ s.inflight, r.attempt ≤ rc.maxAttempts)) ∧
    (∀ (t now : ℚ) (a : Nat), t < now → t ≤ calculateNextRetry rc now a) ∧
    (∀ a : Nat, calcDelay rc a ≤ rc.maxDelay) := by
  refine ⟨?_, ?_, calcDelay_le_maxDelay rc⟩
  · intro s hs
    induction hs with
    | init => exact ⟨by simp, by simp⟩
    | step s t hs hst ih =>
      cases hst with
      | addNew req now h1 =>
        refine ⟨?_, ih.2⟩
        intro r hr
        unfold AddRequest at hr
        rw [List.mem_append] at hr
        rcases hr with hr | hr
        · exact ih.1 r hr
        · rw [List.mem_singleton] at hr
          subst hr
          simp [h1]
          omega
      | tick now =>
        constructor
        · intro r hr
          unfold processReadyRetries at hr
          rw [List.mem_filter] at hr
          have h2 : decide (r.attempt ≤ rc.maxAttempts) = true := by
            have hx := hr.2
            rw [Bool.and_eq_true] at hx
            exact hx.2
          have h3 := of_decide_eq_true h2
          omega
        · intro r hr
          rw [List.mem_append] at hr
          rcases hr with hr | hr
          · exact ih.2 r hr
          · unfold processReadyRetries at hr
            rw [List.mem_filter] at hr
            have h2 : decide (r.attempt ≤ rc.maxAttempts) = true := by
              have hx := hr.2
              unfold retryReady at hx
              rw [Bool.and_eq_true] at hx
              exact hx.2
            exact of_decide_eq_true h2
      | dispatchOk req hmem =>
        exact ⟨ih.1, fun r hr => ih.2 r (List.mem_of_mem_erase hr)⟩
      | dispatchFail req now hmem =>
        refine ⟨?_, fun r hr => ih.2 r (List.mem_of_mem_erase hr)⟩
        intro r hr
        unfold AddRequest at hr
        rw [List.mem_append] at hr
        rcases hr with hr | hr
        · exact ih.1 r hr
        · rw [List.mem_singleton] at hr
          subst hr
          have := ih.2 req hmem
          simp
          omega
  · intro t now a ht
    unfold calculateNextRetry
    have := calcDelay_nonneg rc hinit hfac hmaxd a
    linarith

/-- Retry policy for the C4 counterexample (`max_attempts = 1`). -/
def c4rc : RetryConfig := ⟨1, 1000000000, 300000000000, 2, []⟩

/-- A first-attempt dispatch request for the C4 counterexample. -/
def c4req : DispatchRequest :=
  ⟨"https://example.com/h".data, ⟨[], [], [], [], 0, []⟩, [], [], [], "k".data, 1, 0⟩

/-- C4 counterexample: after the server enqueues a failed first dispatch, the
retry queue — a reachable state — holds an item whose attempt counter exceeds
the configured `max_attempts`, refuting "attempts ≤ max_attempts at all
times". -/
theorem C4_counterexample :
    RetryReachable c4rc ⟨AddRequest c4rc [] c4req 0, []⟩ ∧
    ∃ r ∈ AddRequest c4rc [] c4req 0, c4rc.maxAttempts < r.attempt := by
  constructor
  · exact RetryReachable.step _ _ RetryReachable.init (RetryStep.addNew _ c4req 0 rfl)
  · decide

/-- Retry policy for the C4 witness (the design defaults). -/
def c4w : RetryConfig := ⟨3, 1000000000, 300000000000, 2, []⟩

/-- Witness for the amended C4 theorem at the design-default retry policy. -/
theorem C4_amended_witness :
    1 ≤ c4w.maxAttempts ∧ 0 ≤ c4w.initialDelay ∧ 1 < c4w.backoffFactor ∧
    0 ≤ c4w.maxDelay ∧
    ((∀ s, RetryReachable c4w s →
        (∀ r ∈ s.queue, r.attempt ≤ c4w.maxAttempts + 1) ∧
        (∀ r ∈ s.inflight, r.attempt ≤ c4w.maxAttempts)) ∧
     (∀ (t now : ℚ) (a : Nat), t < now → t ≤ calculateNextRetry c4w now a) ∧
     (∀ a : Nat, calcDelay c4w a ≤ c4w.maxDelay)) :=
  ⟨by norm_num [c4w], by norm_num [c4w], by norm_num [c4w], by norm_num [c4w],
   C4_amended c4w (by norm_num [c4w]) (by norm_num [c4w]) (by norm_num [c4w])
     (by norm_num [c4w])⟩

end Itv

